import Mathlib

set_option maxRecDepth 2000

/-!
Shallow embedding of the sleep-replay control algorithm of
SinghNormanSchapiro_PNAS22.  The source file concatenates two Go programs:
simulation 1 (its `SleepCyc` at lines 1048-1529, `SleepTrial` at 1531-1550,
`SleepCycInit` at 474-512, `BackToWake` at 514-529) and simulation 2 (its
`SleepCyc` at lines 4126-4493, `SleepTrial` at 4623-4642).

Modelling conventions:
* Go float64 values are modelled as rationals.  Every comparison the claims
  exercise is an order comparison between exact decimal constants, far from
  any rounding boundary, so the branch structure is identical.
* Go NaN is modelled as `none : Option ℚ`; any `<`/`>=` comparison against
  NaN is false, exactly as for IEEE NaN.
* Engine-side accumulation calls (`RunSumUpdt`, `CalcActP`, `CalcActM`) only
  feed the weight-update arithmetic, which the program delegates to the
  engine library; they touch no field the claims mention and are elided.
  `SlpDWt` calls are recorded as a per-projection counter.
-/

/-- IEEE-style `s >= t` where `none` stands for NaN: false on NaN. -/
def sGe (s : Option ℚ) (t : ℚ) : Bool :=
  match s with
  | none => false
  | some v => t ≤ v

/-- IEEE-style `s < t` where `none` stands for NaN: false on NaN. -/
def sLt (s : Option ℚ) (t : ℚ) : Bool :=
  match s with
  | none => false
  | some v => v < t

/-- One sending projection: its `IsOff` flag and the number of `SlpDWt`
calls issued to it so far. -/
structure Proj where
  isOff : Bool
  slpDWtCount : Nat
  deriving DecidableEq, Repr

/-- Effect of one `p.(*hip.CHLPrjn).SlpDWt("err")` commit pass on a single
projection: skipped when the projection is off. -/
def slpDWtProj (p : Proj) : Proj :=
  if p.isOff then p else { p with slpDWtCount := p.slpDWtCount + 1 }

/-- State of the phase-detection machinery inside `SleepCyc`:
the `ss.PlusPhase` / `ss.MinusPhase` flags, the local `stablecount`,
`pluscount`, `minuscount` counters, the `ss.SlpTrls` replay-event counter,
and the network modelled as each layer's list of sending projections. -/
structure SlpState where
  plusPhase : Bool
  minusPhase : Bool
  stablecount : Nat
  pluscount : Nat
  minuscount : Nat
  slpTrls : Nat
  net : List (List Proj)
  deriving DecidableEq, Repr

/-- One pass of simulation 2's plus/minus marking block
(simulation_1.go lines 4258-4341), for stability value `s`
(`ss.AvgLaySim`, `none` = NaN) and thresholds `pt`/`mt`
(`plusthresh`/`minusthresh`). -/
def slpStepSim2 (pt mt : ℚ) (st : SlpState) (s : Option ℚ) : SlpState :=
  let st1 :=
    if st.plusPhase = false ∧ st.minusPhase = false then
      if sGe s pt then { st with stablecount := st.stablecount + 1 }
      else if sLt s pt then { st with stablecount := 0 }
      else st
    else st
  if st1.stablecount = 5 ∧ sGe s pt ∧ st1.plusPhase = false ∧ st1.minusPhase = false then
    { st1 with stablecount := 0, minuscount := 0, plusPhase := true,
               pluscount := st1.pluscount + 1 }
  else if st1.pluscount > 0 ∧ sGe s pt ∧ st1.plusPhase = true then
    { st1 with pluscount := st1.pluscount + 1 }
  else if sLt s pt ∧ sGe s mt ∧ st1.plusPhase = true then
    { st1 with plusPhase := false, minusPhase := true,
               minuscount := st1.minuscount + 1, pluscount := 0 }
  else if sGe s mt ∧ st1.minusPhase = true then
    { st1 with minuscount := st1.minuscount + 1 }
  else if sLt s mt ∧ st1.minusPhase = true then
    { st1 with minusPhase := false, minuscount := 0, stablecount := 0,
               slpTrls := st1.slpTrls + 1,
               net := st1.net.map (List.map slpDWtProj) }
  else if sLt s mt ∧ st1.plusPhase = true then
    { st1 with plusPhase := false, pluscount := 0, stablecount := 0,
               minuscount := 0 }
  else st1

/-- One pass of simulation 1's plus/minus marking block
(simulation_1.go lines 1179-1256).  It differs from simulation 2 only in
the completed-minus branch: the weight-update commit is gated on
`ss.SlpTrlOcc == false`, and `ss.SlpTrls++` sits inside the per-layer
loop, so the counter grows by the number of layers per replay event. -/
def slpStepSim1 (slpTrlOcc : Bool) (pt mt : ℚ) (st : SlpState) (s : Option ℚ) : SlpState :=
  let st1 :=
    if st.plusPhase = false ∧ st.minusPhase = false then
      if sGe s pt then { st with stablecount := st.stablecount + 1 }
      else if sLt s pt then { st with stablecount := 0 }
      else st
    else st
  if st1.stablecount = 5 ∧ sGe s pt ∧ st1.plusPhase = false ∧ st1.minusPhase = false then
    { st1 with stablecount := 0, minuscount := 0, plusPhase := true,
               pluscount := st1.pluscount + 1 }
  else if st1.pluscount > 0 ∧ sGe s pt ∧ st1.plusPhase = true then
    { st1 with pluscount := st1.pluscount + 1 }
  else if sLt s pt ∧ sGe s mt ∧ st1.plusPhase = true then
    { st1 with plusPhase := false, minusPhase := true,
               minuscount := st1.minuscount + 1, pluscount := 0 }
  else if sGe s mt ∧ st1.minusPhase = true then
    { st1 with minuscount := st1.minuscount + 1 }
  else if sLt s mt ∧ st1.minusPhase = true then
    let st2 := { st1 with minusPhase := false, minuscount := 0, stablecount := 0 }
    if slpTrlOcc = false then
      { st2 with slpTrls := st2.slpTrls + st2.net.length,
                 net := st2.net.map (List.map slpDWtProj) }
    else st2
  else if sLt s mt ∧ st1.plusPhase = true then
    { st1 with plusPhase := false, pluscount := 0, stablecount := 0,
               minuscount := 0 }
  else st1

/-- Simulation 1's hard-coded `plusthresh` (line 1180). -/
def plusthreshSim1 : ℚ := 0.999965

/-- Simulation 1's `minusthresh := plusthresh - 0.0025` (line 1181). -/
def minusthreshSim1 : ℚ := plusthreshSim1 - 0.0025

/-- Simulation 2's stage-dependent `plusthresh`/`minusthresh`
(lines 4260-4269): default `(0.9999, 0.9999 - 0.01)`, overridden for
`"SWS"` and `"REM"`. -/
def slpThresh (stage : String) : ℚ × ℚ :=
  if stage = "SWS" then (0.99995, 0.99995 - 0.0025)
  else if stage = "REM" then (0.999995, 0.999995 - 0.0025)
  else (0.9999, 0.9999 - 0.01)

/-- Detector state at the top of a bout: flags down, counters zeroed,
network projections as given. -/
def initSlp (net : List (List Proj)) : SlpState :=
  { plusPhase := false, minusPhase := false, stablecount := 0,
    pluscount := 0, minuscount := 0, slpTrls := 0, net := net }

/-- Fold simulation 2's marking block over a per-cycle stability list. -/
def runSim2 (pt mt : ℚ) (st : SlpState) (l : List (Option ℚ)) : SlpState :=
  l.foldl (slpStepSim2 pt mt) st

/-- Fold simulation 1's marking block over a per-cycle stability list. -/
def runSim1 (slpTrlOcc : Bool) (pt mt : ℚ) (st : SlpState) (l : List (Option ℚ)) : SlpState :=
  l.foldl (slpStepSim1 slpTrlOcc pt mt) st

@[simp]
lemma sGe_some (v t : ℚ) : sGe (some v) t = decide (t ≤ v) := rfl

@[simp]
lemma sLt_some (v t : ℚ) : sLt (some v) t = decide (v < t) := rfl

@[simp]
lemma sGe_none (t : ℚ) : sGe none t = false := rfl

@[simp]
lemma sLt_none (t : ℚ) : sLt none t = false := rfl

lemma slpStepSim2_nan (pt mt : ℚ) (st : SlpState) :
    slpStepSim2 pt mt st none = st := by
  simp [slpStepSim2]

lemma slpStepSim1_nan (occ : Bool) (pt mt : ℚ) (st : SlpState) :
    slpStepSim1 occ pt mt st none = st := by
  simp [slpStepSim1]

lemma slpStepSim2_quiescent_inc (pt mt v : ℚ) (st : SlpState)
    (hp : st.plusPhase = false) (hm : st.minusPhase = false)
    (hv : pt ≤ v) (h5 : st.stablecount + 1 ≠ 5) :
    slpStepSim2 pt mt st (some v) = { st with stablecount := st.stablecount + 1 } := by
  simp [slpStepSim2, hp, hm, hv, h5]

lemma slpStepSim2_quiescent_enter (pt mt v : ℚ) (st : SlpState)
    (hp : st.plusPhase = false) (hm : st.minusPhase = false)
    (hv : pt ≤ v) (h5 : st.stablecount + 1 = 5) :
    slpStepSim2 pt mt st (some v) =
      { st with stablecount := 0, minuscount := 0, plusPhase := true,
                pluscount := st.pluscount + 1 } := by
  simp [slpStepSim2, hp, hm, hv, h5]

lemma slpStepSim2_quiescent_reset (pt mt v : ℚ) (st : SlpState)
    (hp : st.plusPhase = false) (hm : st.minusPhase = false)
    (hv : v < pt) :
    slpStepSim2 pt mt st (some v) = { st with stablecount := 0 } := by
  simp [slpStepSim2, hp, hm, hv, not_le.mpr hv]

lemma slpStepSim2_plus_continue (pt mt v : ℚ) (st : SlpState)
    (hp : st.plusPhase = true) (hpc : 0 < st.pluscount) (hv : pt ≤ v) :
    slpStepSim2 pt mt st (some v) = { st with pluscount := st.pluscount + 1 } := by
  simp [slpStepSim2, hp, hpc, hv, not_lt.mpr hv]

lemma slpStepSim2_plus_to_minus (pt mt v : ℚ) (st : SlpState)
    (hp : st.plusPhase = true) (hv1 : v < pt) (hv2 : mt ≤ v) :
    slpStepSim2 pt mt st (some v) =
      { st with plusPhase := false, minusPhase := true,
                minuscount := st.minuscount + 1, pluscount := 0 } := by
  simp [slpStepSim2, hp, hv1, hv2, not_le.mpr hv1]

lemma slpStepSim2_plus_abort (pt mt v : ℚ) (st : SlpState)
    (hp : st.plusPhase = true) (hm : st.minusPhase = false)
    (hv : v < mt) (hvpt : v < pt) :
    slpStepSim2 pt mt st (some v) =
      { st with plusPhase := false, pluscount := 0, stablecount := 0,
                minuscount := 0 } := by
  simp [slpStepSim2, hp, hm, hv, hvpt, not_le.mpr hv, not_le.mpr hvpt]

lemma slpStepSim2_plus_stuck (pt mt v : ℚ) (st : SlpState)
    (hp : st.plusPhase = true) (hm : st.minusPhase = false)
    (hpc : st.pluscount = 0) (hv : pt ≤ v) (hmt : mt ≤ v) :
    slpStepSim2 pt mt st (some v) = st := by
  simp [slpStepSim2, hp, hm, hpc, hv, hmt, not_lt.mpr hv, not_lt.mpr hmt]

lemma slpStepSim2_plus_stuck_abort (pt mt v : ℚ) (st : SlpState)
    (hp : st.plusPhase = true) (hm : st.minusPhase = false)
    (hpc : st.pluscount = 0) (hv : pt ≤ v) (hmt : v < mt) :
    slpStepSim2 pt mt st (some v) =
      { st with plusPhase := false, pluscount := 0, stablecount := 0,
                minuscount := 0 } := by
  simp [slpStepSim2, hp, hm, hpc, hv, hmt, not_lt.mpr hv, not_le.mpr hmt]

lemma slpStepSim2_minus_continue (pt mt v : ℚ) (st : SlpState)
    (hp : st.plusPhase = false) (hm : st.minusPhase = true) (hv : mt ≤ v) :
    slpStepSim2 pt mt st (some v) = { st with minuscount := st.minuscount + 1 } := by
  simp [slpStepSim2, hp, hm, hv, not_lt.mpr hv]

lemma slpStepSim2_minus_end (pt mt v : ℚ) (st : SlpState)
    (hp : st.plusPhase = false) (hm : st.minusPhase = true) (hv : v < mt) :
    slpStepSim2 pt mt st (some v) =
      { st with minusPhase := false, minuscount := 0, stablecount := 0,
                slpTrls := st.slpTrls + 1,
                net := st.net.map (List.map slpDWtProj) } := by
  simp [slpStepSim2, hp, hm, hv, not_le.mpr hv]

lemma slpStepSim1_quiescent_inc (occ : Bool) (pt mt v : ℚ) (st : SlpState)
    (hp : st.plusPhase = false) (hm : st.minusPhase = false)
    (hv : pt ≤ v) (h5 : st.stablecount + 1 ≠ 5) :
    slpStepSim1 occ pt mt st (some v) = { st with stablecount := st.stablecount + 1 } := by
  simp [slpStepSim1, hp, hm, hv, h5]

lemma slpStepSim1_quiescent_enter (occ : Bool) (pt mt v : ℚ) (st : SlpState)
    (hp : st.plusPhase = false) (hm : st.minusPhase = false)
    (hv : pt ≤ v) (h5 : st.stablecount + 1 = 5) :
    slpStepSim1 occ pt mt st (some v) =
      { st with stablecount := 0, minuscount := 0, plusPhase := true,
                pluscount := st.pluscount + 1 } := by
  simp [slpStepSim1, hp, hm, hv, h5]

lemma slpStepSim1_quiescent_reset (occ : Bool) (pt mt v : ℚ) (st : SlpState)
    (hp : st.plusPhase = false) (hm : st.minusPhase = false)
    (hv : v < pt) :
    slpStepSim1 occ pt mt st (some v) = { st with stablecount := 0 } := by
  simp [slpStepSim1, hp, hm, hv, not_le.mpr hv]

lemma slpStepSim1_plus_continue (occ : Bool) (pt mt v : ℚ) (st : SlpState)
    (hp : st.plusPhase = true) (hpc : 0 < st.pluscount) (hv : pt ≤ v) :
    slpStepSim1 occ pt mt st (some v) = { st with pluscount := st.pluscount + 1 } := by
  simp [slpStepSim1, hp, hpc, hv, not_lt.mpr hv]

lemma slpStepSim1_plus_to_minus (occ : Bool) (pt mt v : ℚ) (st : SlpState)
    (hp : st.plusPhase = true) (hv1 : v < pt) (hv2 : mt ≤ v) :
    slpStepSim1 occ pt mt st (some v) =
      { st with plusPhase := false, minusPhase := true,
                minuscount := st.minuscount + 1, pluscount := 0 } := by
  simp [slpStepSim1, hp, hv1, hv2, not_le.mpr hv1]

lemma slpStepSim1_plus_abort (occ : Bool) (pt mt v : ℚ) (st : SlpState)
    (hp : st.plusPhase = true) (hm : st.minusPhase = false)
    (hv : v < mt) (hvpt : v < pt) :
    slpStepSim1 occ pt mt st (some v) =
      { st with plusPhase := false, pluscount := 0, stablecount := 0,
                minuscount := 0 } := by
  simp [slpStepSim1, hp, hm, hv, hvpt, not_le.mpr hv, not_le.mpr hvpt]

lemma slpStepSim1_plus_stuck (occ : Bool) (pt mt v : ℚ) (st : SlpState)
    (hp : st.plusPhase = true) (hm : st.minusPhase = false)
    (hpc : st.pluscount = 0) (hv : pt ≤ v) (hmt : mt ≤ v) :
    slpStepSim1 occ pt mt st (some v) = st := by
  simp [slpStepSim1, hp, hm, hpc, hv, hmt, not_lt.mpr hv, not_lt.mpr hmt]

lemma slpStepSim1_plus_stuck_abort (occ : Bool) (pt mt v : ℚ) (st : SlpState)
    (hp : st.plusPhase = true) (hm : st.minusPhase = false)
    (hpc : st.pluscount = 0) (hv : pt ≤ v) (hmt : v < mt) :
    slpStepSim1 occ pt mt st (some v) =
      { st with plusPhase := false, pluscount := 0, stablecount := 0,
                minuscount := 0 } := by
  simp [slpStepSim1, hp, hm, hpc, hv, hmt, not_lt.mpr hv, not_le.mpr hmt]

lemma slpStepSim1_minus_continue (occ : Bool) (pt mt v : ℚ) (st : SlpState)
    (hp : st.plusPhase = false) (hm : st.minusPhase = true) (hv : mt ≤ v) :
    slpStepSim1 occ pt mt st (some v) = { st with minuscount := st.minuscount + 1 } := by
  simp [slpStepSim1, hp, hm, hv, not_lt.mpr hv]

lemma slpStepSim1_minus_end_occFalse (pt mt v : ℚ) (st : SlpState)
    (hp : st.plusPhase = false) (hm : st.minusPhase = true) (hv : v < mt) :
    slpStepSim1 false pt mt st (some v) =
      { st with minusPhase := false, minuscount := 0, stablecount := 0,
                slpTrls := st.slpTrls + st.net.length,
                net := st.net.map (List.map slpDWtProj) } := by
  simp [slpStepSim1, hp, hm, hv, not_le.mpr hv]

lemma slpStepSim1_minus_end_occTrue (pt mt v : ℚ) (st : SlpState)
    (hp : st.plusPhase = false) (hm : st.minusPhase = true) (hv : v < mt) :
    slpStepSim1 true pt mt st (some v) =
      { st with minusPhase := false, minuscount := 0, stablecount := 0 } := by
  simp [slpStepSim1, hp, hm, hv, not_le.mpr hv]

lemma runSim2_append (pt mt : ℚ) (st : SlpState) (l1 l2 : List (Option ℚ)) :
    runSim2 pt mt st (l1 ++ l2) = runSim2 pt mt (runSim2 pt mt st l1) l2 := by
  simp [runSim2, List.foldl_append]

lemma runSim1_append (occ : Bool) (pt mt : ℚ) (st : SlpState) (l1 l2 : List (Option ℚ)) :
    runSim1 occ pt mt st (l1 ++ l2) = runSim1 occ pt mt (runSim1 occ pt mt st l1) l2 := by
  simp [runSim1, List.foldl_append]

lemma runSim2_cons (pt mt : ℚ) (st : SlpState) (s : Option ℚ) (l : List (Option ℚ)) :
    runSim2 pt mt st (s :: l) = runSim2 pt mt (slpStepSim2 pt mt st s) l := rfl

lemma runSim1_cons (occ : Bool) (pt mt : ℚ) (st : SlpState) (s : Option ℚ) (l : List (Option ℚ)) :
    runSim1 occ pt mt st (s :: l) = runSim1 occ pt mt (slpStepSim1 occ pt mt st s) l := rfl

/-- Closed form for the detector state after `n` cycles of constant
stability at or above `plusthresh`, starting from the bout-initial state:
five debounce cycles, then a single entry into the plus phase that is
never left. -/
def constHighState (net : List (List Proj)) (n : ℕ) : SlpState :=
  if n < 5 then
    { plusPhase := false, minusPhase := false, stablecount := n,
      pluscount := 0, minuscount := 0, slpTrls := 0, net := net }
  else
    { plusPhase := true, minusPhase := false, stablecount := 0,
      pluscount := n - 4, minuscount := 0, slpTrls := 0, net := net }

lemma runSim2_replicate_high (pt mt v : ℚ) (net : List (List Proj))
    (h : pt ≤ v) (n : ℕ) :
    runSim2 pt mt (initSlp net) (List.replicate n (some v)) = constHighState net n := by
  induction n with
  | zero => simp [runSim2, initSlp, constHighState]
  | succ k ih =>
    rw [List.replicate_succ', runSim2_append, ih]
    rcases lt_trichotomy k 4 with hk | hk | hk
    · have h5 : k + 1 ≠ 5 := by omega
      rw [show (runSim2 pt mt (constHighState net k) [some v]) =
            slpStepSim2 pt mt (constHighState net k) (some v) from rfl]
      rw [slpStepSim2_quiescent_inc pt mt v _ (by simp [constHighState, show k < 5 by omega]) (by simp [constHighState, show k < 5 by omega]) h (by simp [constHighState, show k < 5 by omega]; omega)]
      simp [constHighState, if_pos (by omega : k < 5), if_pos (by omega : k + 1 < 5)]
    · subst hk
      rw [show (runSim2 pt mt (constHighState net 4) [some v]) =
            slpStepSim2 pt mt (constHighState net 4) (some v) from rfl]
      rw [slpStepSim2_quiescent_enter pt mt v _ (by simp [constHighState]) (by simp [constHighState]) h (by simp [constHighState])]
      simp [constHighState]
    · rw [show (runSim2 pt mt (constHighState net k) [some v]) =
            slpStepSim2 pt mt (constHighState net k) (some v) from rfl]
      rw [slpStepSim2_plus_continue pt mt v _ (by simp [constHighState, if_neg (by omega : ¬ k < 5)]) (by simp [constHighState, if_neg (by omega : ¬ k < 5)]; omega) h]
      simp [constHighState, if_neg (by omega : ¬ k < 5), if_neg (by omega : ¬ k + 1 < 5)]
      omega

lemma runSim1_replicate_high (occ : Bool) (pt mt v : ℚ) (net : List (List Proj))
    (h : pt ≤ v) (n : ℕ) :
    runSim1 occ pt mt (initSlp net) (List.replicate n (some v)) = constHighState net n := by
  induction n with
  | zero => simp [runSim1, initSlp, constHighState]
  | succ k ih =>
    rw [List.replicate_succ', runSim1_append, ih]
    rcases lt_trichotomy k 4 with hk | hk | hk
    · have h5 : k + 1 ≠ 5 := by omega
      rw [show (runSim1 occ pt mt (constHighState net k) [some v]) =
            slpStepSim1 occ pt mt (constHighState net k) (some v) from rfl]
      rw [slpStepSim1_quiescent_inc occ pt mt v _ (by simp [constHighState, show k < 5 by omega]) (by simp [constHighState, show k < 5 by omega]) h (by simp [constHighState, show k < 5 by omega]; omega)]
      simp [constHighState, if_pos (by omega : k < 5), if_pos (by omega : k + 1 < 5)]
    · subst hk
      rw [show (runSim1 occ pt mt (constHighState net 4) [some v]) =
            slpStepSim1 occ pt mt (constHighState net 4) (some v) from rfl]
      rw [slpStepSim1_quiescent_enter occ pt mt v _ (by simp [constHighState]) (by simp [constHighState]) h (by simp [constHighState])]
      simp [constHighState]
    · rw [show (runSim1 occ pt mt (constHighState net k) [some v]) =
            slpStepSim1 occ pt mt (constHighState net k) (some v) from rfl]
      rw [slpStepSim1_plus_continue occ pt mt v _ (by simp [constHighState, if_neg (by omega : ¬ k < 5)]) (by simp [constHighState, if_neg (by omega : ¬ k < 5)]; omega) h]
      simp [constHighState, if_neg (by omega : ¬ k < 5), if_neg (by omega : ¬ k + 1 < 5)]
      omega

lemma runSim2_replicate_low (pt mt v : ℚ) (net : List (List Proj))
    (h : v < pt) (n : ℕ) :
    runSim2 pt mt (initSlp net) (List.replicate n (some v)) = initSlp net := by
  induction n with
  | zero => rfl
  | succ k ih =>
    rw [List.replicate_succ, runSim2_cons]
    rw [slpStepSim2_quiescent_reset pt mt v _ rfl rfl h]
    exact ih

lemma runSim1_replicate_low (occ : Bool) (pt mt v : ℚ) (net : List (List Proj))
    (h : v < pt) (n : ℕ) :
    runSim1 occ pt mt (initSlp net) (List.replicate n (some v)) = initSlp net := by
  induction n with
  | zero => rfl
  | succ k ih =>
    rw [List.replicate_succ, runSim1_cons]
    rw [slpStepSim1_quiescent_reset occ pt mt v _ rfl rfl h]
    exact ih

lemma runSim2_replicate_minus (pt mt v : ℚ) (st : SlpState)
    (hp : st.plusPhase = false) (hm : st.minusPhase = true) (hv : mt ≤ v) (k : ℕ) :
    runSim2 pt mt st (List.replicate k (some v)) = { st with minuscount := st.minuscount + k } := by
  induction k generalizing st with
  | zero => simp [runSim2]
  | succ j ih =>
    rw [List.replicate_succ, runSim2_cons, slpStepSim2_minus_continue pt mt v st hp hm hv,
        ih { st with minuscount := st.minuscount + 1 } (by simp [hp]) (by simp [hm])]
    simp [Nat.add_assoc, Nat.add_comm 1 j]

lemma runSim1_replicate_minus (occ : Bool) (pt mt v : ℚ) (st : SlpState)
    (hp : st.plusPhase = false) (hm : st.minusPhase = true) (hv : mt ≤ v) (k : ℕ) :
    runSim1 occ pt mt st (List.replicate k (some v)) = { st with minuscount := st.minuscount + k } := by
  induction k generalizing st with
  | zero => simp [runSim1]
  | succ j ih =>
    rw [List.replicate_succ, runSim1_cons, slpStepSim1_minus_continue occ pt mt v st hp hm hv,
        ih { st with minuscount := st.minuscount + 1 } (by simp [hp]) (by simp [hm])]
    simp [Nat.add_assoc, Nat.add_comm 1 j]

lemma runSim2_replicate_low_fix (pt mt v : ℚ) (st : SlpState)
    (hp : st.plusPhase = false) (hm : st.minusPhase = false)
    (hsc : st.stablecount = 0) (h : v < pt) (k : ℕ) :
    runSim2 pt mt st (List.replicate k (some v)) = st := by
  have hfix : { st with stablecount := 0 } = st := by
    rcases st with ⟨p, m, sc, pc, mc, tr, net⟩
    simp only at hsc
    simp [hsc]
  induction k with
  | zero => rfl
  | succ j ih =>
    rw [List.replicate_succ, runSim2_cons, slpStepSim2_quiescent_reset pt mt v st hp hm h, hfix]
    exact ih

lemma runSim1_replicate_low_fix (occ : Bool) (pt mt v : ℚ) (st : SlpState)
    (hp : st.plusPhase = false) (hm : st.minusPhase = false)
    (hsc : st.stablecount = 0) (h : v < pt) (k : ℕ) :
    runSim1 occ pt mt st (List.replicate k (some v)) = st := by
  have hfix : { st with stablecount := 0 } = st := by
    rcases st with ⟨p, m, sc, pc, mc, tr, net⟩
    simp only at hsc
    simp [hsc]
  induction k with
  | zero => rfl
  | succ j ih =>
    rw [List.replicate_succ, runSim1_cons, slpStepSim1_quiescent_reset occ pt mt v st hp hm h, hfix]
    exact ih

/-- The three conceptual phases of the detector, read off the two flags. -/
inductive PhaseState where
  | Quiescent
  | Plus
  | Minus
  deriving DecidableEq, Repr

/-- The phase encoded by a detector state's pair of flags. -/
def phaseOf (st : SlpState) : PhaseState :=
  if st.plusPhase then PhaseState.Plus
  else if st.minusPhase then PhaseState.Minus
  else PhaseState.Quiescent

/-- The two phase flags are never simultaneously raised. -/
def PhaseExcl (st : SlpState) : Prop :=
  ¬(st.plusPhase = true ∧ st.minusPhase = true)

/-- The transition performed on stability input `s` is a self-loop or one
of the four edges of the hysteresis machine: Quiescent->Plus on the met
debounce, Plus->Minus inside the threshold band, Plus->Quiescent on a
direct drop below `minusthresh`, Minus->Quiescent on a drop below
`minusthresh`. -/
def EdgeOK (pt mt : ℚ) (s : Option ℚ) (st stn : SlpState) : Prop :=
  phaseOf stn = phaseOf st ∨
  (phaseOf st = PhaseState.Quiescent ∧ phaseOf stn = PhaseState.Plus ∧
    sGe s pt = true ∧ st.stablecount + 1 = 5) ∨
  (phaseOf st = PhaseState.Plus ∧ phaseOf stn = PhaseState.Minus ∧
    sGe s mt = true ∧ sLt s pt = true) ∨
  (phaseOf st = PhaseState.Plus ∧ phaseOf stn = PhaseState.Quiescent ∧
    sLt s mt = true) ∨
  (phaseOf st = PhaseState.Minus ∧ phaseOf stn = PhaseState.Quiescent ∧
    sLt s mt = true)

lemma sim2_excl_edge (pt mt : ℚ) (st : SlpState) (s : Option ℚ)
    (h : PhaseExcl st) :
    PhaseExcl (slpStepSim2 pt mt st s) ∧ EdgeOK pt mt s st (slpStepSim2 pt mt st s) := by
  cases s with
  | none =>
    rw [slpStepSim2_nan]
    exact ⟨h, Or.inl rfl⟩
  | some v =>
    by_cases hpf : st.plusPhase = true
    · have hmf : st.minusPhase = false := by
        cases hmm : st.minusPhase
        · rfl
        · exact absurd ⟨hpf, hmm⟩ h
      by_cases hpt : pt ≤ v
      · by_cases hpc : 0 < st.pluscount
        · rw [slpStepSim2_plus_continue pt mt v st hpf hpc hpt]
          refine ⟨?_, Or.inl ?_⟩ <;> simp [PhaseExcl, phaseOf, hpf, hmf]
        · have hpc0 : st.pluscount = 0 := by omega
          by_cases hmt : mt ≤ v
          · rw [slpStepSim2_plus_stuck pt mt v st hpf hmf hpc0 hpt hmt]
            exact ⟨h, Or.inl rfl⟩
          · rw [slpStepSim2_plus_stuck_abort pt mt v st hpf hmf hpc0 hpt (not_le.mp hmt)]
            refine ⟨?_, Or.inr (Or.inr (Or.inr (Or.inl ?_)))⟩ <;>
              simp [PhaseExcl, phaseOf, hpf, hmf, not_le.mp hmt]
      · by_cases hmt : mt ≤ v
        · rw [slpStepSim2_plus_to_minus pt mt v st hpf (not_le.mp hpt) hmt]
          refine ⟨?_, Or.inr (Or.inr (Or.inl ?_))⟩ <;>
            simp [PhaseExcl, phaseOf, hpf, hmf, hmt, not_le.mp hpt]
        · rw [slpStepSim2_plus_abort pt mt v st hpf hmf (not_le.mp hmt) (not_le.mp hpt)]
          refine ⟨?_, Or.inr (Or.inr (Or.inr (Or.inl ?_)))⟩ <;>
            simp [PhaseExcl, phaseOf, hpf, hmf, not_le.mp hmt]
    · have hpf2 : st.plusPhase = false := by
        cases hmm : st.plusPhase
        · rfl
        · exact absurd hmm hpf
      by_cases hmf : st.minusPhase = true
      · by_cases hmt : mt ≤ v
        · rw [slpStepSim2_minus_continue pt mt v st hpf2 hmf hmt]
          refine ⟨?_, Or.inl ?_⟩ <;> simp [PhaseExcl, phaseOf, hpf2, hmf]
        · rw [slpStepSim2_minus_end pt mt v st hpf2 hmf (not_le.mp hmt)]
          refine ⟨?_, Or.inr (Or.inr (Or.inr (Or.inr ?_)))⟩ <;>
            simp [PhaseExcl, phaseOf, hpf2, hmf, not_le.mp hmt]
      · have hmf2 : st.minusPhase = false := by
          cases hmm : st.minusPhase
          · rfl
          · exact absurd hmm hmf
        by_cases hpt : pt ≤ v
        · by_cases h5 : st.stablecount + 1 = 5
          · rw [slpStepSim2_quiescent_enter pt mt v st hpf2 hmf2 hpt h5]
            refine ⟨?_, Or.inr (Or.inl ?_)⟩ <;>
              simp [PhaseExcl, phaseOf, hpf2, hmf2, hpt, h5]
          · rw [slpStepSim2_quiescent_inc pt mt v st hpf2 hmf2 hpt h5]
            refine ⟨?_, Or.inl ?_⟩ <;> simp [PhaseExcl, phaseOf, hpf2, hmf2]
        · rw [slpStepSim2_quiescent_reset pt mt v st hpf2 hmf2 (not_le.mp hpt)]
          refine ⟨?_, Or.inl ?_⟩ <;> simp [PhaseExcl, phaseOf, hpf2, hmf2]

lemma sim1_excl_edge (occ : Bool) (pt mt : ℚ) (st : SlpState) (s : Option ℚ)
    (h : PhaseExcl st) :
    PhaseExcl (slpStepSim1 occ pt mt st s) ∧ EdgeOK pt mt s st (slpStepSim1 occ pt mt st s) := by
  cases s with
  | none =>
    rw [slpStepSim1_nan]
    exact ⟨h, Or.inl rfl⟩
  | some v =>
    by_cases hpf : st.plusPhase = true
    · have hmf : st.minusPhase = false := by
        cases hmm : st.minusPhase
        · rfl
        · exact absurd ⟨hpf, hmm⟩ h
      by_cases hpt : pt ≤ v
      · by_cases hpc : 0 < st.pluscount
        · rw [slpStepSim1_plus_continue occ pt mt v st hpf hpc hpt]
          refine ⟨?_, Or.inl ?_⟩ <;> simp [PhaseExcl, phaseOf, hpf, hmf]
        · have hpc0 : st.pluscount = 0 := by omega
          by_cases hmt : mt ≤ v
          · rw [slpStepSim1_plus_stuck occ pt mt v st hpf hmf hpc0 hpt hmt]
            exact ⟨h, Or.inl rfl⟩
          · rw [slpStepSim1_plus_stuck_abort occ pt mt v st hpf hmf hpc0 hpt (not_le.mp hmt)]
            refine ⟨?_, Or.inr (Or.inr (Or.inr (Or.inl ?_)))⟩ <;>
              simp [PhaseExcl, phaseOf, hpf, hmf, not_le.mp hmt]
      · by_cases hmt : mt ≤ v
        · rw [slpStepSim1_plus_to_minus occ pt mt v st hpf (not_le.mp hpt) hmt]
          refine ⟨?_, Or.inr (Or.inr (Or.inl ?_))⟩ <;>
            simp [PhaseExcl, phaseOf, hpf, hmf, hmt, not_le.mp hpt]
        · rw [slpStepSim1_plus_abort occ pt mt v st hpf hmf (not_le.mp hmt) (not_le.mp hpt)]
          refine ⟨?_, Or.inr (Or.inr (Or.inr (Or.inl ?_)))⟩ <;>
            simp [PhaseExcl, phaseOf, hpf, hmf, not_le.mp hmt]
    · have hpf2 : st.plusPhase = false := by
        cases hmm : st.plusPhase
        · rfl
        · exact absurd hmm hpf
      by_cases hmf : st.minusPhase = true
      · by_cases hmt : mt ≤ v
        · rw [slpStepSim1_minus_continue occ pt mt v st hpf2 hmf hmt]
          refine ⟨?_, Or.inl ?_⟩ <;> simp [PhaseExcl, phaseOf, hpf2, hmf]
        · cases occ with
          | false =>
            rw [slpStepSim1_minus_end_occFalse pt mt v st hpf2 hmf (not_le.mp hmt)]
            refine ⟨?_, Or.inr (Or.inr (Or.inr (Or.inr ?_)))⟩ <;>
              simp [PhaseExcl, phaseOf, hpf2, hmf, not_le.mp hmt]
          | true =>
            rw [slpStepSim1_minus_end_occTrue pt mt v st hpf2 hmf (not_le.mp hmt)]
            refine ⟨?_, Or.inr (Or.inr (Or.inr (Or.inr ?_)))⟩ <;>
              simp [PhaseExcl, phaseOf, hpf2, hmf, not_le.mp hmt]
      · have hmf2 : st.minusPhase = false := by
          cases hmm : st.minusPhase
          · rfl
          · exact absurd hmm hmf
        by_cases hpt : pt ≤ v
        · by_cases h5 : st.stablecount + 1 = 5
          · rw [slpStepSim1_quiescent_enter occ pt mt v st hpf2 hmf2 hpt h5]
            refine ⟨?_, Or.inr (Or.inl ?_)⟩ <;>
              simp [PhaseExcl, phaseOf, hpf2, hmf2, hpt, h5]
          · rw [slpStepSim1_quiescent_inc occ pt mt v st hpf2 hmf2 hpt h5]
            refine ⟨?_, Or.inl ?_⟩ <;> simp [PhaseExcl, phaseOf, hpf2, hmf2]
        · rw [slpStepSim1_quiescent_reset occ pt mt v st hpf2 hmf2 (not_le.mp hpt)]
          refine ⟨?_, Or.inl ?_⟩ <;> simp [PhaseExcl, phaseOf, hpf2, hmf2]

/-- C1: for every stability input fed to either simulation's phase
detector, the `PlusPhase` and `MinusPhase` flags are never both raised
after the transition step, and the phase can only stay put or move along
the edges Quiescent->Plus (debounce counter reaching 5 on a qualifying
cycle), Plus->Minus (stability inside the threshold band),
Plus->Quiescent (direct drop below `minusthresh`), or Minus->Quiescent
(drop below `minusthresh`); hence at every cycle the detector is in
exactly one of the three phases. -/
theorem C1_phase_exclusive_and_edges (occ : Bool) (pt mt : ℚ) (st : SlpState)
    (s : Option ℚ) (h : PhaseExcl st) :
    (PhaseExcl (slpStepSim1 occ pt mt st s) ∧
      EdgeOK pt mt s st (slpStepSim1 occ pt mt st s)) ∧
    (PhaseExcl (slpStepSim2 pt mt st s) ∧
      EdgeOK pt mt s st (slpStepSim2 pt mt st s)) :=
  ⟨sim1_excl_edge occ pt mt st s h, sim2_excl_edge pt mt st s h⟩

theorem C1_phase_exclusive_and_edges_witness :
    PhaseExcl (initSlp []) ∧
    ((PhaseExcl (slpStepSim1 false 1 0 (initSlp []) (some 2)) ∧
       EdgeOK 1 0 (some 2) (initSlp []) (slpStepSim1 false 1 0 (initSlp []) (some 2))) ∧
     (PhaseExcl (slpStepSim2 1 0 (initSlp []) (some 2)) ∧
       EdgeOK 1 0 (some 2) (initSlp []) (slpStepSim2 1 0 (initSlp []) (some 2)))) :=
  ⟨by simp [PhaseExcl, initSlp],
   C1_phase_exclusive_and_edges false 1 0 (initSlp []) (some 2)
     (by simp [PhaseExcl, initSlp])⟩

/-- C2: with constant stability `v` for a whole bout of any length `n`,
if `v` is at or above `plusthresh` then, in both simulations, the plus
phase is entered exactly once, namely on the fifth qualifying cycle
(`plusPhase` after `k` cycles is true exactly when `5 ≤ k`, for every
prefix length), it is never exited, the minus flag stays down, and the
replay-event counter and every projection are untouched at bout end;
if instead `v` is below `minusthresh` throughout, the detector never
leaves the all-zero quiescent state and the replay-event count is 0. -/
theorem C2_constant_stability (occ : Bool) (pt mt v : ℚ)
    (net : List (List Proj)) (n : ℕ) :
    (pt ≤ v →
      ((runSim2 pt mt (initSlp net) (List.replicate n (some v))).plusPhase
          = decide (5 ≤ n) ∧
        (runSim2 pt mt (initSlp net) (List.replicate n (some v))).minusPhase = false ∧
        (runSim2 pt mt (initSlp net) (List.replicate n (some v))).slpTrls = 0 ∧
        (runSim2 pt mt (initSlp net) (List.replicate n (some v))).net = net) ∧
      ((runSim1 occ pt mt (initSlp net) (List.replicate n (some v))).plusPhase
          = decide (5 ≤ n) ∧
        (runSim1 occ pt mt (initSlp net) (List.replicate n (some v))).minusPhase = false ∧
        (runSim1 occ pt mt (initSlp net) (List.replicate n (some v))).slpTrls = 0 ∧
        (runSim1 occ pt mt (initSlp net) (List.replicate n (some v))).net = net)) ∧
    (v < mt → mt ≤ pt →
      runSim2 pt mt (initSlp net) (List.replicate n (some v)) = initSlp net ∧
      runSim1 occ pt mt (initSlp net) (List.replicate n (some v)) = initSlp net) := by
  constructor
  · intro hv
    rw [runSim2_replicate_high pt mt v net hv n, runSim1_replicate_high occ pt mt v net hv n]
    by_cases hn : n < 5
    · simp [constHighState, hn, show ¬ 5 ≤ n by omega]
    · simp [constHighState, hn, show 5 ≤ n by omega]
  · intro hv hmp
    have hvpt : v < pt := lt_of_lt_of_le hv hmp
    exact ⟨runSim2_replicate_low pt mt v net hvpt n,
           runSim1_replicate_low occ pt mt v net hvpt n⟩

theorem C2_constant_stability_witness :
    ((0.9999 : ℚ) ≤ 0.99995 ∧
      (((runSim2 0.9999 0.9974 (initSlp [[⟨false, 0⟩]])
            (List.replicate 7 (some 0.99995))).plusPhase = decide (5 ≤ 7) ∧
        (runSim2 0.9999 0.9974 (initSlp [[⟨false, 0⟩]])
            (List.replicate 7 (some 0.99995))).minusPhase = false ∧
        (runSim2 0.9999 0.9974 (initSlp [[⟨false, 0⟩]])
            (List.replicate 7 (some 0.99995))).slpTrls = 0 ∧
        (runSim2 0.9999 0.9974 (initSlp [[⟨false, 0⟩]])
            (List.replicate 7 (some 0.99995))).net = [[⟨false, 0⟩]]) ∧
       ((runSim1 false 0.9999 0.9974 (initSlp [[⟨false, 0⟩]])
            (List.replicate 7 (some 0.99995))).plusPhase = decide (5 ≤ 7) ∧
        (runSim1 false 0.9999 0.9974 (initSlp [[⟨false, 0⟩]])
            (List.replicate 7 (some 0.99995))).minusPhase = false ∧
        (runSim1 false 0.9999 0.9974 (initSlp [[⟨false, 0⟩]])
            (List.replicate 7 (some 0.99995))).slpTrls = 0 ∧
        (runSim1 false 0.9999 0.9974 (initSlp [[⟨false, 0⟩]])
            (List.replicate 7 (some 0.99995))).net = [[⟨false, 0⟩]]))) ∧
    ((0.9 : ℚ) < 0.9974 ∧ (0.9974 : ℚ) ≤ 0.9999 ∧
      (runSim2 0.9999 0.9974 (initSlp [[⟨false, 0⟩]])
          (List.replicate 3 (some 0.9)) = initSlp [[⟨false, 0⟩]] ∧
       runSim1 false 0.9999 0.9974 (initSlp [[⟨false, 0⟩]])
          (List.replicate 3 (some 0.9)) = initSlp [[⟨false, 0⟩]])) :=
  ⟨⟨by norm_num,
    (C2_constant_stability false 0.9999 0.9974 0.99995 [[⟨false, 0⟩]] 7).1 (by norm_num)⟩,
   by norm_num,
   by norm_num,
   (C2_constant_stability false 0.9999 0.9974 0.9 [[⟨false, 0⟩]] 3).2
     (by norm_num) (by norm_num)⟩

/-- Scenario A stability trace: 0.99995 for cycles 0-99, then 0.9 for
cycles 100-199 (cycle budget 200). -/
def scenAStab : List (Option ℚ) :=
  List.replicate 100 (some 0.99995) ++ List.replicate 100 (some 0.9)

lemma scenAStab_take_le (k : ℕ) (hk : k ≤ 100) :
    scenAStab.take k = List.replicate k (some 0.99995) := by
  rw [scenAStab, List.take_append_of_le_length (by simp; omega), List.take_replicate]
  congr 1
  omega

lemma runSim2_abort_then_low (pt mt v : ℚ) (st : SlpState)
    (hp : st.plusPhase = true) (hm : st.minusPhase = false)
    (hv : v < mt) (hvpt : v < pt) (j : ℕ) :
    runSim2 pt mt st (List.replicate (j + 1) (some v)) =
      { st with plusPhase := false, pluscount := 0, stablecount := 0,
                minuscount := 0 } := by
  rw [List.replicate_succ, runSim2_cons, slpStepSim2_plus_abort pt mt v st hp hm hv hvpt]
  exact runSim2_replicate_low_fix pt mt v _ (by simp [hm]) (by simp [hm]) (by simp) hvpt j

/-- C3: a direct drop of stability below `minusthresh` while the detector
is in the plus phase (skipping the minus band) moves both simulations'
detectors back to Quiescent, zeroes `pluscount`, `minuscount` and the
debounce counter, and leaves the replay-event counter and every
projection untouched (no weight-update trigger).  On the Scenario A trace
(`plusThreshold = 0.9999`, `minusThreshold = 0.9974`, stability 0.99995
for cycles 0-99 and 0.9 afterwards, budget 200) the plus phase first
holds in the state reached after five cycles (it is not yet held after
four), is sustained through cycle 99, the abort fires on cycle 100
returning the detector to the all-zero bout-initial state, and the final
state after 200 cycles is Quiescent with a replay-event count of 0. -/
theorem C3_direct_drop_abort (occ : Bool) (pt mt v : ℚ) (st : SlpState)
    (net : List (List Proj))
    (hp : st.plusPhase = true) (hm : st.minusPhase = false)
    (hv : v < mt) (hmp : mt ≤ pt) :
    (slpStepSim2 pt mt st (some v) =
        { st with plusPhase := false, pluscount := 0, stablecount := 0,
                  minuscount := 0 } ∧
      slpStepSim1 occ pt mt st (some v) =
        { st with plusPhase := false, pluscount := 0, stablecount := 0,
                  minuscount := 0 }) ∧
    ((runSim2 0.9999 0.9974 (initSlp net) (scenAStab.take 4)).plusPhase = false ∧
      (runSim2 0.9999 0.9974 (initSlp net) (scenAStab.take 5)).plusPhase = true ∧
      (∀ k, 5 ≤ k → k ≤ 100 →
        (runSim2 0.9999 0.9974 (initSlp net) (scenAStab.take k)).plusPhase = true ∧
        (runSim2 0.9999 0.9974 (initSlp net) (scenAStab.take k)).minusPhase = false) ∧
      runSim2 0.9999 0.9974 (initSlp net) (scenAStab.take 101) = initSlp net ∧
      runSim2 0.9999 0.9974 (initSlp net) scenAStab = initSlp net) := by
  have hvpt : v < pt := lt_of_lt_of_le hv hmp
  refine ⟨⟨slpStepSim2_plus_abort pt mt v st hp hm hv hvpt,
           slpStepSim1_plus_abort occ pt mt v st hp hm hv hvpt⟩, ?_, ?_, ?_, ?_, ?_⟩
  · rw [scenAStab_take_le 4 (by omega),
        runSim2_replicate_high _ _ _ _ (by norm_num) 4]
    simp [constHighState]
  · rw [scenAStab_take_le 5 (by omega),
        runSim2_replicate_high _ _ _ _ (by norm_num) 5]
    simp [constHighState]
  · intro k hk5 hk100
    rw [scenAStab_take_le k hk100,
        runSim2_replicate_high _ _ _ _ (by norm_num) k]
    simp [constHighState, show ¬ k < 5 by omega]
  · rw [scenAStab, List.take_append_eq_append_take]
    simp only [List.length_replicate]
    rw [List.take_replicate, List.take_replicate]
    rw [show min 101 100 = 100 by omega, show min (101 - 100) 100 = 1 by omega]
    rw [runSim2_append, runSim2_replicate_high _ _ _ _ (by norm_num) 100]
    rw [show (1 : ℕ) = 0 + 1 from rfl]
    rw [runSim2_abort_then_low _ _ _ _ (by simp [constHighState]) (by simp [constHighState])
          (by norm_num) (by norm_num) 0]
    simp [constHighState, initSlp]
  · rw [scenAStab, runSim2_append, runSim2_replicate_high _ _ _ _ (by norm_num) 100]
    rw [show (100 : ℕ) = 99 + 1 from rfl]
    rw [runSim2_abort_then_low _ _ _ _ (by simp [constHighState]) (by simp [constHighState])
          (by norm_num) (by norm_num) 99]
    simp [constHighState, initSlp]

theorem C3_direct_drop_abort_witness :
    ((constHighState [] 10).plusPhase = true ∧
      (constHighState [] 10).minusPhase = false ∧
      ((0.9 : ℚ) < 0.9974) ∧ ((0.9974 : ℚ) ≤ 0.9999)) ∧
    ((slpStepSim2 0.9999 0.9974 (constHighState [] 10) (some 0.9) =
        { constHighState [] 10 with plusPhase := false, pluscount := 0,
                                    stablecount := 0, minuscount := 0 } ∧
      slpStepSim1 false 0.9999 0.9974 (constHighState [] 10) (some 0.9) =
        { constHighState [] 10 with plusPhase := false, pluscount := 0,
                                    stablecount := 0, minuscount := 0 }) ∧
     ((runSim2 0.9999 0.9974 (initSlp []) (scenAStab.take 4)).plusPhase = false ∧
      (runSim2 0.9999 0.9974 (initSlp []) (scenAStab.take 5)).plusPhase = true ∧
      (∀ k, 5 ≤ k → k ≤ 100 →
        (runSim2 0.9999 0.9974 (initSlp []) (scenAStab.take k)).plusPhase = true ∧
        (runSim2 0.9999 0.9974 (initSlp []) (scenAStab.take k)).minusPhase = false) ∧
      runSim2 0.9999 0.9974 (initSlp []) (scenAStab.take 101) = initSlp [] ∧
      runSim2 0.9999 0.9974 (initSlp []) scenAStab = initSlp [])) :=
  ⟨⟨by simp [constHighState], by simp [constHighState], by norm_num, by norm_num⟩,
   C3_direct_drop_abort false 0.9999 0.9974 0.9 (constHighState [] 10) []
     (by simp [constHighState]) (by simp [constHighState]) (by norm_num) (by norm_num)⟩

/-- Scenario B stability trace: 0.99995 for cycles 0-9, 0.998 for cycles
10-19, 0.9 for cycles 20-199. -/
def scenBStab : List (Option ℚ) :=
  List.replicate 10 (some 0.99995) ++
    (List.replicate 10 (some 0.998) ++ List.replicate 180 (some 0.9))

/-- Detector state entering cycle 20 of Scenario B: in the minus phase
with ten minus cycles accumulated. -/
def scenBMinusState (net : List (List Proj)) : SlpState :=
  { plusPhase := false, minusPhase := true, stablecount := 0,
    pluscount := 0, minuscount := 10, slpTrls := 0, net := net }

lemma scenB_prefix20 (net : List (List Proj)) :
    runSim2 0.9999 0.9974 (initSlp net)
      (List.replicate 10 (some 0.99995) ++ List.replicate 10 (some 0.998)) =
    scenBMinusState net := by
  rw [runSim2_append, runSim2_replicate_high _ _ _ _ (by norm_num) 10]
  rw [show (10 : ℕ) = 9 + 1 from rfl, List.replicate_succ, runSim2_cons]
  rw [slpStepSim2_plus_to_minus _ _ _ _ (by simp [constHighState]) (by norm_num) (by norm_num)]
  rw [runSim2_replicate_minus _ _ _ _ (by simp [constHighState]) (by simp [constHighState])
        (by norm_num) 9]
  simp [constHighState, scenBMinusState]

theorem C4_counterexample :
    (scenBMinusState (List.replicate 12 [])).slpTrls = 0 ∧
    (scenBMinusState (List.replicate 12 [])).minusPhase = true ∧
    ((0.9 : ℚ) < minusthreshSim1) ∧
    ¬((slpStepSim1 false plusthreshSim1 minusthreshSim1
        (scenBMinusState (List.replicate 12 [])) (some 0.9)).slpTrls =
      (scenBMinusState (List.replicate 12 [])).slpTrls + 1) ∧
    (slpStepSim1 false plusthreshSim1 minusthreshSim1
        (scenBMinusState (List.replicate 12 [])) (some 0.9)).slpTrls = 12 := by
  have hlt : (0.9 : ℚ) < minusthreshSim1 := by
    norm_num [minusthreshSim1, plusthreshSim1]
  refine ⟨rfl, rfl, hlt, ?_, ?_⟩ <;>
    rw [slpStepSim1_minus_end_occFalse _ _ _ _ rfl rfl hlt] <;>
    simp [scenBMinusState]

/-- C4 (amended): a completed Plus->Minus hysteresis cycle (stability
dropping below `minusthresh` while in the minus phase) issues exactly one
`SlpDWt` commit to every projection that is not switched off and none to
switched-off projections.  In simulation 2 the replay-event counter
`SlpTrls` then grows by exactly one; in simulation 1 the commit pass runs
only when `SlpTrlOcc` is false, in which case `SlpTrls` grows once per
network layer (12 layers in that network), and not at all otherwise.  On
the Scenario B trace (thresholds 0.9999/0.9974; 0.99995 for cycles 0-9,
0.998 for cycles 10-19, 0.9 from cycle 20; budget 200) simulation 2's
detector is in the minus phase with `minuscount = 10` entering cycle 20,
the single trigger fires on cycle 20, and at bout end the replay-event
count is 1 with every live projection having received exactly one
commit. -/
theorem C4_replay_trigger (pt mt v : ℚ) (st : SlpState) (p : Proj)
    (net : List (List Proj))
    (hp : st.plusPhase = false) (hm : st.minusPhase = true) (hv : v < mt) :
    (slpStepSim2 pt mt st (some v) =
        { st with minusPhase := false, minuscount := 0, stablecount := 0,
                  slpTrls := st.slpTrls + 1,
                  net := st.net.map (List.map slpDWtProj) } ∧
      slpStepSim1 false pt mt st (some v) =
        { st with minusPhase := false, minuscount := 0, stablecount := 0,
                  slpTrls := st.slpTrls + st.net.length,
                  net := st.net.map (List.map slpDWtProj) } ∧
      slpStepSim1 true pt mt st (some v) =
        { st with minusPhase := false, minuscount := 0, stablecount := 0 }) ∧
    ((p.isOff = true → slpDWtProj p = p) ∧
      (p.isOff = false → (slpDWtProj p).slpDWtCount = p.slpDWtCount + 1 ∧
        (slpDWtProj p).isOff = false)) ∧
    (runSim2 0.9999 0.9974 (initSlp net)
        (List.replicate 10 (some 0.99995) ++ List.replicate 10 (some 0.998)) =
      scenBMinusState net ∧
      runSim2 0.9999 0.9974 (scenBMinusState net) [some 0.9] =
        { scenBMinusState net with
            minusPhase := false, minuscount := 0, stablecount := 0,
            slpTrls := 1, net := net.map (List.map slpDWtProj) } ∧
      (runSim2 0.9999 0.9974 (initSlp net) scenBStab).slpTrls = 1 ∧
      (runSim2 0.9999 0.9974 (initSlp net) scenBStab).net =
        net.map (List.map slpDWtProj) ∧
      (runSim2 0.9999 0.9974 (initSlp net) scenBStab).plusPhase = false ∧
      (runSim2 0.9999 0.9974 (initSlp net) scenBStab).minusPhase = false) := by
  refine ⟨⟨slpStepSim2_minus_end pt mt v st hp hm hv,
           slpStepSim1_minus_end_occFalse pt mt v st hp hm hv,
           slpStepSim1_minus_end_occTrue pt mt v st hp hm hv⟩,
         ⟨?_, ?_⟩, scenB_prefix20 net, ?_, ?_⟩
  · intro hoff
    simp [slpDWtProj, hoff]
  · intro hon
    simp [slpDWtProj, hon]
  · rw [show ([some (0.9 : ℚ)] : List (Option ℚ)) = List.replicate 1 (some 0.9) from rfl,
        show (1 : ℕ) = 0 + 1 from rfl, List.replicate_succ, runSim2_cons]
    rw [slpStepSim2_minus_end _ _ _ _ rfl rfl (by norm_num)]
    simp [scenBMinusState, runSim2]
  · have hfinal : runSim2 0.9999 0.9974 (initSlp net) scenBStab =
        { scenBMinusState net with
            minusPhase := false, minuscount := 0, stablecount := 0,
            slpTrls := 1, net := net.map (List.map slpDWtProj) } := by
      rw [scenBStab, ← List.append_assoc, runSim2_append, scenB_prefix20 net]
      rw [show (180 : ℕ) = 179 + 1 from rfl, List.replicate_succ, runSim2_cons]
      rw [slpStepSim2_minus_end _ _ _ _ rfl rfl (by norm_num)]
      rw [runSim2_replicate_low_fix _ _ _ _ (by simp [scenBMinusState])
            (by simp [scenBMinusState]) (by simp [scenBMinusState]) (by norm_num) 179]
      simp [scenBMinusState]
    rw [hfinal]
    simp [scenBMinusState]

theorem C4_replay_trigger_witness :
    ((scenBMinusState []).plusPhase = false ∧
      (scenBMinusState []).minusPhase = true ∧
      ((0.9 : ℚ) < 0.9974)) ∧
    ((slpStepSim2 0.9999 0.9974 (scenBMinusState []) (some 0.9) =
        { scenBMinusState [] with
            minusPhase := false, minuscount := 0, stablecount := 0,
            slpTrls := (scenBMinusState []).slpTrls + 1,
            net := (scenBMinusState []).net.map (List.map slpDWtProj) } ∧
      slpStepSim1 false 0.9999 0.9974 (scenBMinusState []) (some 0.9) =
        { scenBMinusState [] with
            minusPhase := false, minuscount := 0, stablecount := 0,
            slpTrls := (scenBMinusState []).slpTrls + (scenBMinusState []).net.length,
            net := (scenBMinusState []).net.map (List.map slpDWtProj) } ∧
      slpStepSim1 true 0.9999 0.9974 (scenBMinusState []) (some 0.9) =
        { scenBMinusState [] with
            minusPhase := false, minuscount := 0, stablecount := 0 }) ∧
    (((⟨false, 3⟩ : Proj).isOff = true → slpDWtProj ⟨false, 3⟩ = ⟨false, 3⟩) ∧
      ((⟨false, 3⟩ : Proj).isOff = false →
        (slpDWtProj ⟨false, 3⟩).slpDWtCount = (⟨false, 3⟩ : Proj).slpDWtCount + 1 ∧
        (slpDWtProj ⟨false, 3⟩).isOff = false)) ∧
    (runSim2 0.9999 0.9974 (initSlp [[⟨false, 0⟩, ⟨true, 0⟩]])
        (List.replicate 10 (some 0.99995) ++ List.replicate 10 (some 0.998)) =
      scenBMinusState [[⟨false, 0⟩, ⟨true, 0⟩]] ∧
      runSim2 0.9999 0.9974 (scenBMinusState [[⟨false, 0⟩, ⟨true, 0⟩]]) [some 0.9] =
        { scenBMinusState [[⟨false, 0⟩, ⟨true, 0⟩]] with
            minusPhase := false, minuscount := 0, stablecount := 0,
            slpTrls := 1,
            net := [[⟨false, 0⟩, ⟨true, 0⟩]].map (List.map slpDWtProj) } ∧
      (runSim2 0.9999 0.9974 (initSlp [[⟨false, 0⟩, ⟨true, 0⟩]]) scenBStab).slpTrls = 1 ∧
      (runSim2 0.9999 0.9974 (initSlp [[⟨false, 0⟩, ⟨true, 0⟩]]) scenBStab).net =
        [[⟨false, 0⟩, ⟨true, 0⟩]].map (List.map slpDWtProj) ∧
      (runSim2 0.9999 0.9974 (initSlp [[⟨false, 0⟩, ⟨true, 0⟩]]) scenBStab).plusPhase = false ∧
      (runSim2 0.9999 0.9974 (initSlp [[⟨false, 0⟩, ⟨true, 0⟩]]) scenBStab).minusPhase = false)) :=
  ⟨⟨rfl, rfl, by norm_num⟩,
   C4_replay_trigger 0.9999 0.9974 0.9 (scenBMinusState []) ⟨false, 3⟩
     [[⟨false, 0⟩, ⟨true, 0⟩]] rfl rfl (by norm_num)⟩

/-- Gain value at cycle `i` of the inhibition-oscillation slice built in
`SleepTrial`: `amp * math.Sin(2*3.14/OscillPeriod*float64(i)) + OscillMidline`
with `OscillPeriod = 50.` and `OscillMidline = 1.0` (simulation 1 lines
1536-1545, simulation 2 lines 4628-4638).  The source multiplies by the
literal `3.14`, not by π. -/
noncomputable def oscillGain (amp : ℝ) (i : ℕ) : ℝ :=
  amp * Real.sin (2 * 3.14 / 50 * i) + 1.0

/-- Simulation 1's `LowOscillAmp` (line 1538). -/
def lowOscillAmpSim1 : ℝ := 0.015

/-- Simulation 1's `HighOscillAmp` (line 1537). -/
def highOscillAmpSim1 : ℝ := 0.05

/-- Simulation 2's `LowOscillAmp` (line 4630). -/
def lowOscillAmpSim2 : ℝ := 0.06

/-- Simulation 2's `HighOscillAmp` (line 4629). -/
def highOscillAmpSim2 : ℝ := 0.03

/-- `GainAt(g, i)` for simulation 1: slice row 0 carries the
low-amplitude schedule, row 1 the high-amplitude schedule. -/
noncomputable def gainAtSim1 (g : Fin 2) (i : ℕ) : ℝ :=
  if g = 0 then oscillGain lowOscillAmpSim1 i else oscillGain highOscillAmpSim1 i

/-- `GainAt(g, i)` for simulation 2. -/
noncomputable def gainAtSim2 (g : Fin 2) (i : ℕ) : ℝ :=
  if g = 0 then oscillGain lowOscillAmpSim2 i else oscillGain highOscillAmpSim2 i

/-- Modelled from the spec: the idealized oscillation schedule
`amplitude * sin(2π·i / period) + midline` with period 50 and midline
1.0, i.e. the code's formula with the exact constant π in place of the
literal `3.14`. -/
noncomputable def oscillGainPi (amp : ℝ) (i : ℕ) : ℝ :=
  amp * Real.sin (2 * Real.pi / 50 * i) + 1.0

lemma sin_628_neg : Real.sin 6.28 < 0 := by
  have hper : Real.sin (6.28 - 2 * Real.pi) = Real.sin 6.28 :=
    Real.sin_sub_two_pi 6.28
  have hpigt : (3.141592 : ℝ) < Real.pi := Real.pi_gt_d6
  have hpilt : Real.pi < 3.141593 := Real.pi_lt_d6
  have hy0 : 6.28 - 2 * Real.pi < 0 := by nlinarith
  have hympi : -Real.pi < 6.28 - 2 * Real.pi := by nlinarith
  have := Real.sin_neg_of_neg_of_neg_pi_lt hy0 hympi
  linarith [hper ▸ this]

lemma sin_diff_le_abs (u w : ℝ) : |Real.sin u - Real.sin w| ≤ |u - w| := by
  rw [Real.sin_sub_sin]
  have h1 : |Real.sin ((u - w) / 2)| ≤ |(u - w) / 2| := Real.abs_sin_le_abs
  have h2 : |Real.cos ((u + w) / 2)| ≤ 1 :=
    abs_le.mpr ⟨Real.neg_one_le_cos _, Real.cos_le_one _⟩
  have hval : |(u - w) / 2| = |u - w| / 2 := by
    rw [abs_div]
    norm_num
  calc |2 * Real.sin ((u - w) / 2) * Real.cos ((u + w) / 2)|
      = |2| * |Real.sin ((u - w) / 2)| * |Real.cos ((u + w) / 2)| := by
        rw [abs_mul, abs_mul]
    _ ≤ |2| * |(u - w) / 2| * 1 := by
        apply mul_le_mul _ h2 (abs_nonneg _) (by positivity)
        exact mul_le_mul_of_nonneg_left h1 (abs_nonneg _)
    _ = |u - w| := by
        rw [hval, abs_of_nonneg (by norm_num : (0 : ℝ) ≤ 2)]
        ring

theorem C5_counterexample :
    gainAtSim1 0 (0 + 50) ≠ gainAtSim1 0 0 ∧
    gainAtSim2 0 (0 + 50) ≠ gainAtSim2 0 0 := by
  have harg : (2 : ℝ) * 3.14 / 50 * ((0 + 50 : ℕ) : ℝ) = 6.28 := by
    push_cast
    norm_num
  have harg0 : (2 : ℝ) * 3.14 / 50 * ((0 : ℕ) : ℝ) = 0 := by
    push_cast
    norm_num
  have hneg := sin_628_neg
  constructor
  · simp only [gainAtSim1, if_pos rfl, ite_true, oscillGain, harg, harg0,
      Real.sin_zero, lowOscillAmpSim1]
    intro hcontra
    nlinarith
  · simp only [gainAtSim2, if_pos rfl, ite_true, oscillGain, harg, harg0,
      Real.sin_zero, lowOscillAmpSim2]
    intro hcontra
    nlinarith

/-- C5 (amended): the schedule the code builds is
`amp * sin(2*3.14/50 * i) + 1.0`; because the literal `3.14` stands in
for π it is only approximately 50-periodic: the idealized schedule with
the exact constant π is exactly 50-periodic, while the code's schedule
satisfies `|GainAt(g, i+50) - GainAt(g, i)| <= |amp| * (2π - 6.28)`
(with `2π - 6.28 < 0.0032`), and exact equality fails, e.g. at `i = 0`
for every nonzero amplitude. -/
theorem C5_oscillation_period (amp : ℝ) (i : ℕ) :
    oscillGainPi amp (i + 50) = oscillGainPi amp i ∧
    |oscillGain amp (i + 50) - oscillGain amp i| ≤ |amp| * (2 * Real.pi - 6.28) ∧
    (2 * Real.pi - 6.28 : ℝ) < 0.0032 := by
  have hpigt : (3.141592 : ℝ) < Real.pi := Real.pi_gt_d6
  have hpilt : Real.pi < 3.141593 := Real.pi_lt_d6
  refine ⟨?_, ?_, by nlinarith⟩
  · have harg : (2 : ℝ) * Real.pi / 50 * ((i + 50 : ℕ) : ℝ) =
        2 * Real.pi / 50 * (i : ℝ) + 2 * Real.pi := by
      push_cast
      ring
    simp only [oscillGainPi, harg, Real.sin_add_two_pi]
  · have harg : (2 : ℝ) * 3.14 / 50 * ((i + 50 : ℕ) : ℝ) =
        2 * 3.14 / 50 * (i : ℝ) + 6.28 := by
      push_cast
      ring
    simp only [oscillGain, harg]
    have hdiff : amp * Real.sin (2 * 3.14 / 50 * (i : ℝ) + 6.28) + 1.0 -
        (amp * Real.sin (2 * 3.14 / 50 * (i : ℝ)) + 1.0) =
        amp * (Real.sin (2 * 3.14 / 50 * (i : ℝ) + 6.28) -
          Real.sin (2 * 3.14 / 50 * (i : ℝ) + 2 * Real.pi)) := by
      rw [Real.sin_add_two_pi]
      ring
    rw [hdiff, abs_mul]
    apply mul_le_mul_of_nonneg_left _ (abs_nonneg amp)
    calc |Real.sin (2 * 3.14 / 50 * (i : ℝ) + 6.28) -
          Real.sin (2 * 3.14 / 50 * (i : ℝ) + 2 * Real.pi)|
        ≤ |2 * 3.14 / 50 * (i : ℝ) + 6.28 -
            (2 * 3.14 / 50 * (i : ℝ) + 2 * Real.pi)| := sin_diff_le_abs _ _
      _ = |6.28 - 2 * Real.pi| := by ring_nf
      _ = 2 * Real.pi - 6.28 := by
          rw [abs_of_nonpos (by nlinarith)]
          ring

/-- Simulation 1's low-amplitude oscillation group (line 1149). -/
def lowLayersSim1 : List String := ["ClassName", "CTX", "pCA1", "dCA1"]

/-- Simulation 1's high-amplitude oscillation group (line 1150). -/
def highLayersSim1 : List String := ["F1", "F2", "F3", "F4", "F5", "DG", "CA3"]

/-- The five perceptual layers that simulation 1 resets from the single
`finhib` snapshot variable, which holds layer F1's pre-bout `Gi`
(lines 1088, 1137-1140). -/
def fLayersSim1 : List String := ["F1", "F2", "F3", "F4", "F5"]

/-- The layers simulation 1 resets from their own snapshot variables
(lines 1141-1147). -/
def ownResetLayersSim1 : List String :=
  ["ClassName", "CodeName", "pCA1", "dCA1", "DG", "CTX", "CA3"]

/-- All twelve layers of simulation 1's network. -/
def allLayersSim1 : List String := fLayersSim1 ++ ownResetLayersSim1

/-- The pre-bout inhibition snapshot simulation 1 associates with each
layer: the five F layers share F1's snapshot (`finhib`), every other
layer has its own (lines 1087-1095). -/
def snapshotSim1 (gi0 : String → ℝ) : String → ℝ := fun l =>
  if l ∈ fLayersSim1 then gi0 "F1" else gi0 l

/-- Per-cycle reset of every layer's `Inhib.Layer.Gi` to its snapshot
before the oscillation multiplier is applied (simulation 1 lines
1137-1147). -/
def resetGiSim1 (gi0 gi : String → ℝ) : String → ℝ := fun l =>
  if l ∈ fLayersSim1 then gi0 "F1"
  else if l ∈ ownResetLayersSim1 then gi0 l
  else gi l

/-- Multiplication of each oscillated layer's `Gi` by the current cycle's
slice value: row 0 for low layers, row 1 for high layers (simulation 1
lines 1149-1159). -/
def applyOscillSim1 (c : Fin 2 → ℕ → ℝ) (cyc : ℕ) (gi : String → ℝ) : String → ℝ := fun l =>
  if l ∈ lowLayersSim1 then gi l * c 0 cyc
  else if l ∈ highLayersSim1 then gi l * c 1 cyc
  else gi l

/-- One cycle of simulation 1's inhibition handling: reset to snapshot,
then multiply by this cycle's gain. -/
def inhibCycSim1 (gi0 : String → ℝ) (c : Fin 2 → ℕ → ℝ) (cyc : ℕ)
    (gi : String → ℝ) : String → ℝ :=
  applyOscillSim1 c cyc (resetGiSim1 gi0 gi)

/-- The inhibition state after the cycle-`i` pass of the bout loop,
starting from the pre-bout state `gi0` (which is also the snapshot
source). -/
def giAfterSim1 (gi0 : String → ℝ) (c : Fin 2 → ℕ → ℝ) : ℕ → String → ℝ
  | 0 => inhibCycSim1 gi0 c 0 gi0
  | i + 1 => inhibCycSim1 gi0 c (i + 1) (giAfterSim1 gi0 c i)

/-- Simulation 2's low-amplitude oscillation group (line 4191). -/
def lowLayersSim2 : List String := ["Input", "Output", "CTX", "pCA1", "dCA1"]

/-- Simulation 2's high-amplitude oscillation group (line 4192). -/
def highLayersSim2 : List String := ["DG", "CA3"]

/-- The seven layers simulation 2 snapshots and resets, each from its own
variable (lines 4141-4147, 4181-4187). -/
def allLayersSim2 : List String :=
  ["Input", "DG", "CA3", "CTX", "Output", "pCA1", "dCA1"]

/-- Per-cycle reset of each layer's `Gi` to its own snapshot
(simulation 2 lines 4181-4187). -/
def resetGiSim2 (gi0 gi : String → ℝ) : String → ℝ := fun l =>
  if l ∈ allLayersSim2 then gi0 l else gi l

/-- Oscillation multiplier application (simulation 2 lines 4194-4201). -/
def applyOscillSim2 (c : Fin 2 → ℕ → ℝ) (cyc : ℕ) (gi : String → ℝ) : String → ℝ := fun l =>
  if l ∈ lowLayersSim2 then gi l * c 0 cyc
  else if l ∈ highLayersSim2 then gi l * c 1 cyc
  else gi l

/-- One cycle of simulation 2's inhibition handling. -/
def inhibCycSim2 (gi0 : String → ℝ) (c : Fin 2 → ℕ → ℝ) (cyc : ℕ)
    (gi : String → ℝ) : String → ℝ :=
  applyOscillSim2 c cyc (resetGiSim2 gi0 gi)

/-- Simulation 2's inhibition state after the cycle-`i` pass. -/
def giAfterSim2 (gi0 : String → ℝ) (c : Fin 2 → ℕ → ℝ) : ℕ → String → ℝ
  | 0 => inhibCycSim2 gi0 c 0 gi0
  | i + 1 => inhibCycSim2 gi0 c (i + 1) (giAfterSim2 gi0 c i)

lemma inhibCycSim1_low (gi0 gi : String → ℝ) (c : Fin 2 → ℕ → ℝ) (cyc : ℕ)
    (l : String) (hl : l ∈ lowLayersSim1) :
    inhibCycSim1 gi0 c cyc gi l = snapshotSim1 gi0 l * c 0 cyc := by
  fin_cases hl <;>
    simp [inhibCycSim1, applyOscillSim1, resetGiSim1, snapshotSim1,
      lowLayersSim1, highLayersSim1, fLayersSim1, ownResetLayersSim1]

lemma inhibCycSim1_high (gi0 gi : String → ℝ) (c : Fin 2 → ℕ → ℝ) (cyc : ℕ)
    (l : String) (hl : l ∈ highLayersSim1) :
    inhibCycSim1 gi0 c cyc gi l = snapshotSim1 gi0 l * c 1 cyc := by
  fin_cases hl <;>
    simp [inhibCycSim1, applyOscillSim1, resetGiSim1, snapshotSim1,
      lowLayersSim1, highLayersSim1, fLayersSim1, ownResetLayersSim1]

lemma inhibCycSim2_low (gi0 gi : String → ℝ) (c : Fin 2 → ℕ → ℝ) (cyc : ℕ)
    (l : String) (hl : l ∈ lowLayersSim2) :
    inhibCycSim2 gi0 c cyc gi l = gi0 l * c 0 cyc := by
  fin_cases hl <;>
    simp [inhibCycSim2, applyOscillSim2, resetGiSim2,
      lowLayersSim2, highLayersSim2, allLayersSim2]

lemma inhibCycSim2_high (gi0 gi : String → ℝ) (c : Fin 2 → ℕ → ℝ) (cyc : ℕ)
    (l : String) (hl : l ∈ highLayersSim2) :
    inhibCycSim2 gi0 c cyc gi l = gi0 l * c 1 cyc := by
  fin_cases hl <;>
    simp [inhibCycSim2, applyOscillSim2, resetGiSim2,
      lowLayersSim2, highLayersSim2, allLayersSim2]

/-- C6: the inhibition multiplier never compounds across cycles.  At
every cycle `i` of a bout, an oscillated layer's effective `Gi` equals
the snapshot the bout took for it multiplied by the single cycle-`i`
gain of its group, regardless of the starting state and of every earlier
gain (in simulation 1 the five F layers are reset from F1's snapshot;
every other oscillated layer, and every simulation 2 layer, uses its own
pre-bout value). -/
theorem C6_no_compounding (gi0 : String → ℝ) (c : Fin 2 → ℕ → ℝ) (i : ℕ) (l : String) :
    (l ∈ lowLayersSim1 → giAfterSim1 gi0 c i l = snapshotSim1 gi0 l * c 0 i) ∧
    (l ∈ highLayersSim1 → giAfterSim1 gi0 c i l = snapshotSim1 gi0 l * c 1 i) ∧
    (l ∈ lowLayersSim2 → giAfterSim2 gi0 c i l = gi0 l * c 0 i) ∧
    (l ∈ highLayersSim2 → giAfterSim2 gi0 c i l = gi0 l * c 1 i) := by
  refine ⟨fun hl => ?_, fun hl => ?_, fun hl => ?_, fun hl => ?_⟩ <;>
    cases i with
    | zero => first
      | exact inhibCycSim1_low gi0 gi0 c 0 l hl
      | exact inhibCycSim1_high gi0 gi0 c 0 l hl
      | exact inhibCycSim2_low gi0 gi0 c 0 l hl
      | exact inhibCycSim2_high gi0 gi0 c 0 l hl
    | succ j => first
      | exact inhibCycSim1_low gi0 _ c (j + 1) l hl
      | exact inhibCycSim1_high gi0 _ c (j + 1) l hl
      | exact inhibCycSim2_low gi0 _ c (j + 1) l hl
      | exact inhibCycSim2_high gi0 _ c (j + 1) l hl

theorem C6_no_compounding_witness :
    ("CTX" ∈ lowLayersSim1 ∧ "CA3" ∈ highLayersSim2) ∧
    giAfterSim1 (fun _ => 2) (fun _ _ => 3) 1 "CTX" =
      snapshotSim1 (fun _ => 2) "CTX" * 3 ∧
    giAfterSim2 (fun _ => 2) (fun _ _ => 3) 1 "CA3" = 2 * 3 :=
  ⟨⟨by decide, by decide⟩,
   (C6_no_compounding (fun _ => 2) (fun _ _ => 3) 1 "CTX").1 (by decide),
   (C6_no_compounding (fun _ => 2) (fun _ _ => 3) 1 "CA3").2.2.2 (by decide)⟩

/-- `if math.IsNaN(tmpsim) { tmpsim = 0 }`: a NaN similarity is replaced
by 0 (simulation 1 lines 1167-1170, simulation 2 lines 4217-4220). -/
def nanToZero (s : Option ℚ) : ℚ :=
  match s with
  | none => 0
  | some v => v

/-- Simulation 1's per-cycle stability average: the NaN-substituted
per-layer similarity values summed over all twelve layers and divided by
the literal 12 (lines 1162-1173). -/
def stabilityAvgSim1 (sims : String → Option ℚ) : ℚ :=
  ((allLayersSim1.map (fun l => nanToZero (sims l))).sum) / 12

/-- The monitored layer set for simulation 2's sleep stages (lines
4208-4213): three cortical layers for REM, all seven for SWS, empty for
any other stage string. -/
def monitoredLayers (stage : String) : List String :=
  if stage = "REM" then ["Input", "Output", "CTX"]
  else if stage = "SWS" then ["Input", "Output", "CTX", "DG", "CA3", "pCA1", "dCA1"]
  else []

/-- Simulation 2's per-layer contribution (lines 4215-4230): the
NaN-substituted similarity, overridden to 0 whenever the layer's summed
unit activation is below 1. -/
def contribSim2 (sim : Option ℚ) (acts : List ℚ) : ℚ :=
  if acts.sum < 1 then 0 else nanToZero sim

/-- Simulation 2's per-cycle stability average (lines 4204-4232):
contributions of the monitored layers divided by the layer count.  With
an empty monitored set the Go code computes `0/0 = NaN`, modelled as
`none`. -/
def stabilityAvgSim2 (stage : String) (sims : String → Option ℚ)
    (acts : String → List ℚ) : Option ℚ :=
  let lys := monitoredLayers stage
  if lys = [] then none
  else some (((lys.map (fun l => contribSim2 (sims l) (acts l))).sum) / (lys.length : ℚ))

/-- C8: a layer whose engine-supplied similarity is NaN contributes
exactly 0 to the cycle's stability average in both simulations; the
average equals the one computed with that layer's similarity replaced by
the definite value 0, so the remaining layers are averaged normally; and
in simulation 2 the cycle's stability is still a definite (non-NaN)
value, so the bout continues rather than aborting. -/
theorem C8_nan_contributes_zero (stage l : String) (sims : String → Option ℚ)
    (acts : String → List ℚ) (hnan : sims l = none) :
    (l ∈ allLayersSim1 →
      nanToZero (sims l) = 0 ∧
      stabilityAvgSim1 sims =
        stabilityAvgSim1 (fun k => if k = l then some 0 else sims k)) ∧
    (l ∈ monitoredLayers stage →
      contribSim2 (sims l) (acts l) = 0 ∧
      stabilityAvgSim2 stage sims acts =
        stabilityAvgSim2 stage (fun k => if k = l then some 0 else sims k) acts ∧
      (stabilityAvgSim2 stage sims acts).isSome = true) := by
  constructor
  · intro _
    refine ⟨by simp [hnan, nanToZero], ?_⟩
    unfold stabilityAvgSim1
    congr 1
    refine congrArg List.sum (List.map_congr_left ?_)
    intro k _
    by_cases hk : k = l
    · subst hk
      simp [hnan, nanToZero]
    · simp [hk]
  · intro hmem
    have hne : monitoredLayers stage ≠ [] := by
      intro hempty
      rw [hempty] at hmem
      exact absurd hmem (List.not_mem_nil l)
    refine ⟨by simp [hnan, contribSim2, nanToZero], ?_, ?_⟩
    · unfold stabilityAvgSim2
      simp only [if_neg hne]
      congr 2
      refine congrArg List.sum (List.map_congr_left ?_)
      intro k _
      by_cases hk : k = l
      · subst hk
        simp [hnan, contribSim2, nanToZero]
      · simp [hk]
    · unfold stabilityAvgSim2
      simp [if_neg hne]

theorem C8_nan_contributes_zero_witness :
    ((fun k => if k = "CTX" then none else some (1 : ℚ)) "CTX" = none ∧
      "CTX" ∈ allLayersSim1 ∧ "CTX" ∈ monitoredLayers "SWS") ∧
    (nanToZero ((fun k => if k = "CTX" then none else some (1 : ℚ)) "CTX") = 0 ∧
      stabilityAvgSim1 (fun k => if k = "CTX" then none else some (1 : ℚ)) =
        stabilityAvgSim1 (fun j =>
          if j = "CTX" then some 0
          else (fun k => if k = "CTX" then none else some (1 : ℚ)) j)) ∧
    (contribSim2 ((fun k => if k = "CTX" then none else some (1 : ℚ)) "CTX")
        ((fun _ => [(2 : ℚ)]) "CTX") = 0 ∧
      stabilityAvgSim2 "SWS" (fun k => if k = "CTX" then none else some (1 : ℚ))
          (fun _ => [(2 : ℚ)]) =
        stabilityAvgSim2 "SWS" (fun j =>
          if j = "CTX" then some 0
          else (fun k => if k = "CTX" then none else some (1 : ℚ)) j)
          (fun _ => [(2 : ℚ)]) ∧
      (stabilityAvgSim2 "SWS" (fun k => if k = "CTX" then none else some (1 : ℚ))
          (fun _ => [(2 : ℚ)])).isSome = true) :=
  ⟨⟨by decide, by decide, by decide⟩,
   (C8_nan_contributes_zero "SWS" "CTX"
      (fun k => if k = "CTX" then none else some (1 : ℚ))
      (fun _ => [(2 : ℚ)]) (by decide)).1 (by decide),
   (C8_nan_contributes_zero "SWS" "CTX"
      (fun k => if k = "CTX" then none else some (1 : ℚ))
      (fun _ => [(2 : ℚ)]) (by decide)).2 (by decide)⟩

/-- C10: in simulation 2's sleep cycle, a monitored layer whose summed
unit activation is below 1 contributes 0 to the stability average even
when its similarity is a definite (non-NaN) value: the average equals
the one computed with that layer's similarity replaced by 0. -/
theorem C10_low_activation_zeroed (stage l : String) (sims : String → Option ℚ)
    (acts : String → List ℚ) (v : ℚ)
    (hmem : l ∈ monitoredLayers stage) (hsum : (acts l).sum < 1)
    (hv : sims l = some v) :
    contribSim2 (sims l) (acts l) = 0 ∧
    stabilityAvgSim2 stage sims acts =
      stabilityAvgSim2 stage (fun k => if k = l then some 0 else sims k) acts := by
  have hne : monitoredLayers stage ≠ [] := by
    intro hempty
    rw [hempty] at hmem
    exact absurd hmem (List.not_mem_nil l)
  refine ⟨by simp [contribSim2, hsum], ?_⟩
  unfold stabilityAvgSim2
  simp only [if_neg hne]
  congr 2
  refine congrArg List.sum (List.map_congr_left ?_)
  intro k _
  by_cases hk : k = l
  · subst hk
    simp [contribSim2, hsum]
  · simp [hk]

theorem C10_low_activation_zeroed_witness :
    ("CA3" ∈ monitoredLayers "SWS" ∧
      ((fun _ => [(0.2 : ℚ), 0.3]) "CA3").sum < 1 ∧
      (fun (_ : String) => some (0.7 : ℚ)) "CA3" = some 0.7) ∧
    (contribSim2 ((fun (_ : String) => some (0.7 : ℚ)) "CA3")
        ((fun _ => [(0.2 : ℚ), 0.3]) "CA3") = 0 ∧
      stabilityAvgSim2 "SWS" (fun _ => some (0.7 : ℚ)) (fun _ => [(0.2 : ℚ), 0.3]) =
        stabilityAvgSim2 "SWS"
          (fun k => if k = "CA3" then some 0 else (fun (_ : String) => some (0.7 : ℚ)) k)
          (fun _ => [(0.2 : ℚ), 0.3])) :=
  ⟨⟨by decide, by norm_num, rfl⟩,
   C10_low_activation_zeroed "SWS" "CA3" (fun _ => some (0.7 : ℚ))
     (fun _ => [(0.2 : ℚ), 0.3]) 0.7 (by decide) (by norm_num) rfl⟩

/-- Bout-level engine state touched by the sleep orchestration code:
per-layer inhibition `Gi`, whether depression parameters are installed,
a representative synapse's effective and nominal weight, and the phase
detector state. -/
structure BoutState where
  gi : String → ℝ
  sdActive : Bool
  effwt : ℝ
  wt : ℝ
  det : SlpState

/-- Simulation 1's `SleepCycInit` (lines 474-512) as far as the claims
reach: when `ss.SynDep` is set, `InitSdEffWt` installs the depression
parameters.  (Activation randomization is engine state outside the
model.) -/
def sleepCycInitSim1 (synDep : Bool) (st : BoutState) : BoutState :=
  if synDep then { st with sdActive := true } else st

/-- The cycle loop of simulation 1's `SleepCyc` (lines 1123-1429): each
cycle applies the inhibition oscillation for the current cycle index,
lets the engine advance (modelled by the arbitrary per-cycle effect `f`
on the effective weight), computes the stability average from the
engine-supplied layer similarities, and feeds it to the phase-marking
block with the hard-coded simulation 1 thresholds. -/
def sleepCycLoopSim1 (occ : Bool) (gi0 : String → ℝ) (c : Fin 2 → ℕ → ℝ)
    (f : ℕ → ℝ → ℝ) : ℕ → BoutState → List (String → Option ℚ) → BoutState
  | _, st, [] => st
  | cyc, st, sims :: rest =>
    sleepCycLoopSim1 occ gi0 c f (cyc + 1)
      { st with gi := inhibCycSim1 gi0 c cyc st.gi,
                effwt := f cyc st.effwt,
                det := slpStepSim1 occ plusthreshSim1 minusthreshSim1 st.det
                         (some (stabilityAvgSim1 sims)) } rest

/-- Simulation 1's `SleepCyc` (lines 1048-1529): snapshot the inhibition
state, zero the local phase counters and `ss.SlpTrls`, run the cycle
loop, then finalize: clear any still-raised phase flag and all counters
without touching `SlpTrls` or the projections (lines 1434-1438), and
restore every layer's `Gi` from its snapshot (lines 1495-1506). -/
def sleepCycSim1 (occ : Bool) (c : Fin 2 → ℕ → ℝ) (f : ℕ → ℝ → ℝ)
    (simsList : List (String → Option ℚ)) (st : BoutState) : BoutState :=
  let gi0 := st.gi
  let stL := sleepCycLoopSim1 occ gi0 c f 0
      { st with det := { st.det with
                           stablecount := 0, pluscount := 0,
                           minuscount := 0, slpTrls := 0 } } simsList
  { stL with
      det := { stL.det with
                 plusPhase := false, minusPhase := false,
                 stablecount := 0, pluscount := 0, minuscount := 0 },
      gi := resetGiSim1 gi0 stL.gi }

/-- Simulation 1's `BackToWake` (lines 514-529).  Modelled from the
spec and the in-source comment (`Effwt back to =Wt`): the engine call
`TermSdEffWt`, issued when `ss.SynDep` is set, removes the depression
parameters and restores each effective weight to its nominal value. -/
def backToWakeSim1 (synDep : Bool) (st : BoutState) : BoutState :=
  if synDep then { st with effwt := st.wt, sdActive := false } else st

/-- Simulation 1's `SleepTrial` (lines 1531-1550): init, cycle loop with
the oscillation slice rows `(gainAtSim1 0, gainAtSim1 1)`, back to wake. -/
noncomputable def sleepTrialSim1 (occ synDep : Bool) (f : ℕ → ℝ → ℝ)
    (simsList : List (String → Option ℚ)) (st : BoutState) : BoutState :=
  backToWakeSim1 synDep
    (sleepCycSim1 occ (fun g i => gainAtSim1 g i) f simsList (sleepCycInitSim1 synDep st))

/-- The detector state at the end of the cycle loop alone (before
finalization), for comparison with the bout's final state. -/
def loopDetSim1 (occ : Bool) (simsList : List (String → Option ℚ))
    (det : SlpState) : SlpState :=
  runSim1 occ plusthreshSim1 minusthreshSim1
    { det with stablecount := 0, pluscount := 0, minuscount := 0, slpTrls := 0 }
    (simsList.map (fun sims => some (stabilityAvgSim1 sims)))

lemma sleepCycLoopSim1_spec (occ : Bool) (gi0 : String → ℝ) (c : Fin 2 → ℕ → ℝ)
    (f : ℕ → ℝ → ℝ) (simsList : List (String → Option ℚ)) :
    ∀ (cyc : ℕ) (st : BoutState),
      (sleepCycLoopSim1 occ gi0 c f cyc st simsList).det =
        runSim1 occ plusthreshSim1 minusthreshSim1 st.det
          (simsList.map (fun sims => some (stabilityAvgSim1 sims))) ∧
      (sleepCycLoopSim1 occ gi0 c f cyc st simsList).wt = st.wt ∧
      (sleepCycLoopSim1 occ gi0 c f cyc st simsList).sdActive = st.sdActive := by
  induction simsList with
  | nil =>
    intro cyc st
    exact ⟨rfl, rfl, rfl⟩
  | cons sims rest ih =>
    intro cyc st
    simpa [sleepCycLoopSim1, runSim1_cons] using ih (cyc + 1)
      { st with gi := inhibCycSim1 gi0 c cyc st.gi,
                effwt := f cyc st.effwt,
                det := slpStepSim1 occ plusthreshSim1 minusthreshSim1 st.det
                         (some (stabilityAvgSim1 sims)) }

lemma resetGiSim1_mem (gi0 gi : String → ℝ) (l : String)
    (hl : l ∈ allLayersSim1) :
    resetGiSim1 gi0 gi l = snapshotSim1 gi0 l := by
  fin_cases hl <;>
    simp [resetGiSim1, snapshotSim1, fLayersSim1, ownResetLayersSim1]

/-- C7: after a simulation 1 sleep bout finishes (any cycle count,
including zero), every layer's inhibition conductance equals the
snapshot the bout took for it before the loop, the depression
parameters are removed and the effective weight is back at the nominal
weight (when depression was in use), and any still-raised Plus or Minus
flag is cleared while the replay-event counter and every projection are
exactly those of the loop's last cycle — finalization fires no
trigger. -/
theorem C7_finalize_restores (occ synDep : Bool) (f : ℕ → ℝ → ℝ)
    (simsList : List (String → Option ℚ)) (st : BoutState) (l : String)
    (hl : l ∈ allLayersSim1) :
    (sleepTrialSim1 occ synDep f simsList st).gi l = snapshotSim1 st.gi l ∧
    (sleepTrialSim1 occ synDep f simsList st).wt = st.wt ∧
    (synDep = true →
      (sleepTrialSim1 occ synDep f simsList st).effwt =
        (sleepTrialSim1 occ synDep f simsList st).wt ∧
      (sleepTrialSim1 occ synDep f simsList st).sdActive = false) ∧
    (sleepTrialSim1 occ synDep f simsList st).det.plusPhase = false ∧
    (sleepTrialSim1 occ synDep f simsList st).det.minusPhase = false ∧
    (sleepTrialSim1 occ synDep f simsList st).det.slpTrls =
      (loopDetSim1 occ simsList st.det).slpTrls ∧
    (sleepTrialSim1 occ synDep f simsList st).det.net =
      (loopDetSim1 occ simsList st.det).net := by
  have hspec := sleepCycLoopSim1_spec occ (sleepCycInitSim1 synDep st).gi
    (fun g i => gainAtSim1 g i) f simsList 0
    { sleepCycInitSim1 synDep st with
        det := { (sleepCycInitSim1 synDep st).det with
                   stablecount := 0, pluscount := 0, minuscount := 0, slpTrls := 0 } }
  cases synDep <;>
    simp_all [sleepTrialSim1, sleepCycSim1, backToWakeSim1, sleepCycInitSim1,
      loopDetSim1, resetGiSim1_mem _ _ l hl]

theorem C7_finalize_restores_witness :
    ("CA3" ∈ allLayersSim1) ∧
    ((sleepTrialSim1 false true (fun _ w => w + 1)
        [fun _ => some 0.5] ⟨fun _ => 2, false, 7, 3, initSlp []⟩).gi "CA3" =
      snapshotSim1 (fun _ => 2) "CA3" ∧
    (sleepTrialSim1 false true (fun _ w => w + 1)
        [fun _ => some 0.5] ⟨fun _ => 2, false, 7, 3, initSlp []⟩).wt = 3 ∧
    (true = true →
      (sleepTrialSim1 false true (fun _ w => w + 1)
          [fun _ => some 0.5] ⟨fun _ => 2, false, 7, 3, initSlp []⟩).effwt =
        (sleepTrialSim1 false true (fun _ w => w + 1)
          [fun _ => some 0.5] ⟨fun _ => 2, false, 7, 3, initSlp []⟩).wt ∧
      (sleepTrialSim1 false true (fun _ w => w + 1)
          [fun _ => some 0.5] ⟨fun _ => 2, false, 7, 3, initSlp []⟩).sdActive = false) ∧
    (sleepTrialSim1 false true (fun _ w => w + 1)
        [fun _ => some 0.5] ⟨fun _ => 2, false, 7, 3, initSlp []⟩).det.plusPhase = false ∧
    (sleepTrialSim1 false true (fun _ w => w + 1)
        [fun _ => some 0.5] ⟨fun _ => 2, false, 7, 3, initSlp []⟩).det.minusPhase = false ∧
    (sleepTrialSim1 false true (fun _ w => w + 1)
        [fun _ => some 0.5] ⟨fun _ => 2, false, 7, 3, initSlp []⟩).det.slpTrls =
      (loopDetSim1 false [fun _ => some 0.5] (initSlp [])).slpTrls ∧
    (sleepTrialSim1 false true (fun _ w => w + 1)
        [fun _ => some 0.5] ⟨fun _ => 2, false, 7, 3, initSlp []⟩).det.net =
      (loopDetSim1 false [fun _ => some 0.5] (initSlp [])).net) :=
  ⟨by decide,
   C7_finalize_restores false true (fun _ w => w + 1)
     [fun _ => some 0.5] ⟨fun _ => 2, false, 7, 3, initSlp []⟩ "CA3" (by decide)⟩

/-- Per-cycle engine observation consumed by simulation 2's stability
monitor: each layer's similarity value and unit activations. -/
structure EngineObs where
  sims : String → Option ℚ
  acts : String → List ℚ

/-- Simulation 2's `SleepCycInit` (lines 3504-3544): installs the
depression parameters when `ss.SynDep` is set. -/
def sleepCycInitSim2 (synDep : Bool) (st : BoutState) : BoutState :=
  if synDep then { st with sdActive := true } else st

/-- The cycle loop of simulation 2's `SleepCyc` (lines 4155-4364):
oscillation application, engine step (arbitrary effect `f` on the
effective weight), stage-dependent stability average, phase-marking
block with the stage's thresholds. -/
def sleepCycLoopSim2 (gi0 : String → ℝ) (c : Fin 2 → ℕ → ℝ) (f : ℕ → ℝ → ℝ)
    (stage : String) : ℕ → BoutState → List EngineObs → BoutState
  | _, st, [] => st
  | cyc, st, o :: rest =>
    sleepCycLoopSim2 gi0 c f stage (cyc + 1)
      { st with gi := inhibCycSim2 gi0 c cyc st.gi,
                effwt := f cyc st.effwt,
                det := slpStepSim2 (slpThresh stage).1 (slpThresh stage).2 st.det
                         (stabilityAvgSim2 stage o.sims o.acts) } rest

/-- Simulation 2's `SleepCyc` (lines 4126-4493): `ss.SlpTrls = 0` and
zeroed local counters before the loop, the cycle loop, then the reset of
the sleep-algorithm variables (lines 4473-4477) and the restoration of
every layer's `Gi` from its snapshot (lines 4482-4488). -/
def sleepCycSim2 (stage : String) (c : Fin 2 → ℕ → ℝ) (f : ℕ → ℝ → ℝ)
    (obs : List EngineObs) (st : BoutState) : BoutState :=
  let gi0 := st.gi
  let stL := sleepCycLoopSim2 gi0 c f stage 0
      { st with det := { st.det with
                           stablecount := 0, pluscount := 0,
                           minuscount := 0, slpTrls := 0 } } obs
  { stL with
      det := { stL.det with
                 plusPhase := false, minusPhase := false,
                 stablecount := 0, pluscount := 0, minuscount := 0 },
      gi := resetGiSim2 gi0 stL.gi }

/-- Simulation 2's `BackToWake` (lines 3547-3567), modelled like
simulation 1's: `TermSdEffWt` puts every effective weight back at its
nominal value and removes the depression parameters. -/
def backToWakeSim2 (synDep : Bool) (st : BoutState) : BoutState :=
  if synDep then { st with effwt := st.wt, sdActive := false } else st

/-- Simulation 2's `SleepTrial` (lines 4623-4642): init, cycle loop with
the `gainAtSim2` oscillation slice, back to wake.  There is no
configuration validation anywhere on this path. -/
noncomputable def sleepTrialSim2 (stage : String) (synDep : Bool) (f : ℕ → ℝ → ℝ)
    (obs : List EngineObs) (st : BoutState) : BoutState :=
  backToWakeSim2 synDep
    (sleepCycSim2 stage (fun g i => gainAtSim2 g i) f obs (sleepCycInitSim2 synDep st))

/-- The debounce length: the literal `5` in the `stablecount == 5`
entry guards (lines 1194, 4282). -/
def debounceLen : ℕ := 5

theorem C9_counterexample :
    (("bogus" = "SWS") = False ∧ ("bogus" = "REM") = False) ∧
    (sleepTrialSim2 "bogus" true (fun _ w => w)
        [⟨fun _ => some 1, fun _ => [2]⟩]
        ⟨fun _ => 2, false, 7, 3, { initSlp [] with slpTrls := 9 }⟩).det.slpTrls = 0 ∧
    ({ initSlp [] with slpTrls := 9 } : SlpState).slpTrls = 9 ∧
    (sleepTrialSim2 "bogus" true (fun _ w => w)
        [⟨fun _ => some 1, fun _ => [2]⟩]
        ⟨fun _ => 2, false, 7, 3, { initSlp [] with slpTrls := 9 }⟩).effwt = 3 ∧
    (⟨fun _ => 2, false, 7, 3, { initSlp [] with slpTrls := 9 }⟩ : BoutState).effwt = 7 := by
  refine ⟨⟨by simp, by simp⟩, ?_, rfl, ?_, rfl⟩ <;>
    simp [sleepTrialSim2, sleepCycSim2, sleepCycLoopSim2, backToWakeSim2,
      sleepCycInitSim2, slpStepSim2_nan, stabilityAvgSim2, monitoredLayers]

/-- C9 (amended): the sleep code performs no configuration validation
and has no error path.  The invalid configurations the claim names
cannot arise: for every stage string the hard-coded thresholds satisfy
`plusthresh > minusthresh`, and the debounce length is the constant 5
(hence at least 1).  An unknown stage is not rejected: the bout runs
with an empty monitored layer set, every cycle's stability average is
NaN, and the phase-marking block leaves the detector state unchanged on
such a value — while bout state is still mutated (the replay counter is
zeroed at bout start and Init runs), as the counterexample shows. -/
theorem C9_no_validation (stage : String) (sims : String → Option ℚ)
    (acts : String → List ℚ) (st : SlpState) :
    (slpThresh stage).2 < (slpThresh stage).1 ∧
    1 ≤ debounceLen ∧
    (stage ≠ "SWS" → stage ≠ "REM" →
      monitoredLayers stage = [] ∧
      stabilityAvgSim2 stage sims acts = none ∧
      slpStepSim2 (slpThresh stage).1 (slpThresh stage).2 st
        (stabilityAvgSim2 stage sims acts) = st) := by
  refine ⟨?_, by norm_num [debounceLen], ?_⟩
  · by_cases h1 : stage = "SWS"
    · simp [slpThresh, h1]
      norm_num
    · by_cases h2 : stage = "REM"
      · simp [slpThresh, h1, h2]
        norm_num
      · simp [slpThresh, h1, h2]
        norm_num
  · intro h1 h2
    have hmon : monitoredLayers stage = [] := by
      simp [monitoredLayers, h1, h2]
    have hstab : stabilityAvgSim2 stage sims acts = none := by
      simp [stabilityAvgSim2, hmon]
    exact ⟨hmon, hstab, by rw [hstab]; exact slpStepSim2_nan _ _ st⟩

theorem C9_no_validation_witness :
    (("bogus" : String) ≠ "SWS" ∧ ("bogus" : String) ≠ "REM") ∧
    ((slpThresh "bogus").2 < (slpThresh "bogus").1 ∧
      1 ≤ debounceLen ∧
      (monitoredLayers "bogus" = [] ∧
        stabilityAvgSim2 "bogus" (fun _ => some 1) (fun _ => [2]) = none ∧
        slpStepSim2 (slpThresh "bogus").1 (slpThresh "bogus").2 (initSlp [])
          (stabilityAvgSim2 "bogus" (fun _ => some 1) (fun _ => [2])) = initSlp [])) :=
  ⟨⟨by decide, by decide⟩,
   (C9_no_validation "bogus" (fun _ => some 1) (fun _ => [2]) (initSlp [])).1,
   (C9_no_validation "bogus" (fun _ => some 1) (fun _ => [2]) (initSlp [])).2.1,
   (C9_no_validation "bogus" (fun _ => some 1) (fun _ => [2]) (initSlp [])).2.2
     (by decide) (by decide)⟩
